import Mathlib

/-!
Verification development for the AI-Job-Scanner decision pipeline.

Shallow embedding of the core modules:
* `apply/routing.py`  — profile scoring, routing decision table, email selection
* `apply/outbox.py`   — append-only outbox ledger, dedupe index, statistics
* `classify/rules.py` — keyword-table classifier with guardrails
* `storage/sqlite.py` — cursor table and idempotent message store
* `telegram/ingest.py`— ingestion pass control flow

Machine floats of the source are modelled as rationals (`Rat`); every score in
the program is a sum of the literals 1.0, 1.5, 0.7, 0.2, 0.1 whose arithmetic
is exact in (binary or decimal) floating point at these magnitudes, so the
rational model coincides with the float behaviour on all reachable values.
Python dicts are modelled as association lists in insertion order; Python sets
by lists observed only through membership.
-/

namespace AIJobScanner

/-! ## Word-boundary regex matching

`routing.py` and `rules.py` match keywords with
`re.search(r"\b" + re.escape(keyword) + r"\b", text_lower)`.
A `\b` matches at a position whose two neighbouring characters (a position
outside the string counts as a non-word character) differ in word-character
status, where a word character is `[A-Za-z0-9_]` (ASCII fragment of `\w`;
all embedded inputs are ASCII).  `re.escape` makes the keyword a literal. -/

def isWordChar (c : Char) : Bool := c.isAlphanum || c == '_'

/-- Word-character status of position `j` of `t` (`false` outside the string). -/
def wordAt (t : List Char) (j : Nat) : Bool :=
  match t.get? j with
  | some c => isWordChar c
  | none => false

/-- Does `\b` match between positions `j-1` and `j` of `t`? -/
def wbBoundary (t : List Char) (j : Nat) : Bool :=
  match j with
  | 0 => wordAt t 0
  | j + 1 => wordAt t j != wordAt t (j + 1)

/-- Does the pattern `\b kw \b` match `t` starting at offset `i`? -/
def wbMatchAt (t kw : List Char) (i : Nat) : Bool :=
  ((t.drop i).take kw.length == kw) && wbBoundary t i && wbBoundary t (i + kw.length)

/-- `re.search(r"\b" + re.escape(kw) + r"\b", t)`: the pattern matches at some offset. -/
def wbSearch (t kw : List Char) : Bool :=
  (List.range (t.length + 1)).any (fun i => wbMatchAt t kw i)

/-- ASCII lowering of a string, the model of `str.lower` (all embedded inputs are ASCII). -/
def lowerStr (s : String) : String := ⟨s.data.map Char.toLower⟩

/-- Word-boundary search on strings; both arguments are expected already lowered. -/
def wbSearchS (t kw : String) : Bool := wbSearch t.data kw.data

/-- Python substring test `needle in hay` (contiguous substring). -/
def substrS (needle hay : String) : Bool :=
  (List.range (hay.data.length + 1)).any
    (fun i => (hay.data.drop i).take needle.data.length == needle.data)

/-- Splitting a character list at blanks (empty pieces kept). -/
def splitSpaces (cur : List Char) : List Char → List (List Char)
  | [] => [cur.reverse]
  | c :: rest =>
      if c == ' ' then cur.reverse :: splitSpaces [] rest
      else splitSpaces (c :: cur) rest

/-- Python `s.split()`: split on blank runs, dropping empty pieces (the
embedded keyword phrases use single spaces as their only whitespace). -/
def wordsOf (s : String) : List String :=
  ((splitSpaces [] s.data).filter (fun w => w ≠ [])).map (fun w => ⟨w⟩)

/-- Python truthiness of an optional string (`None` and `""` are falsy). -/
def truthy : Option String → Bool
  | none => false
  | some s => s ≠ ""

/-! ## `apply/routing.py` -/

/-- A routing profile (`profiles.yaml` entry as consumed by `routing.py`).
`threshold` is optional because the source reads it with
`profile.get("threshold", 0.7)`. -/
structure Profile where
  keywords_positive : List String
  keywords_negative : List String
  threshold : Option Rat
deriving DecidableEq, Repr

/-- `score_profile`: +1.0 per positive keyword list entry that word-boundary
matches the lowered text, −1.5 per matching negative entry. -/
def score_profile (text : String) (profile : Profile) : Rat :=
  let tl := lowerStr text
  let pos := profile.keywords_positive.foldl
    (fun s kw => if wbSearchS tl (lowerStr kw) then s + 1 else s) 0
  profile.keywords_negative.foldl
    (fun s kw => if wbSearchS tl (lowerStr kw) then s - 3/2 else s) pos

/-- Result of `route_message`.  The `routing_metadata` dict of the source is
modelled by its `decision` tag; the remaining metadata fields restate values
already present in `scores`. -/
structure RouteResult where
  profile_id : Option String
  skip_reason : Option String
  scores : List (String × Rat)
  decision : String
deriving DecidableEq, Repr

/-- Descending insertion of a rational into a descending-sorted list. -/
def insertDesc (x : Rat) : List Rat → List Rat
  | [] => [x]
  | y :: ys => if x ≥ y then x :: y :: ys else y :: insertDesc x ys

/-- `sorted(values, reverse=True)`. -/
def sortDesc (l : List Rat) : List Rat := l.foldr insertDesc []

/-- `max(above_threshold, key=above_threshold.get)`: first element of maximal
score in iteration order (Python `max` keeps the earliest maximum). -/
def argmaxFirst (l : List (String × Rat)) : Option (String × Rat) :=
  match l with
  | [] => none
  | x :: xs => some (xs.foldl (fun best y => if y.2 > best.2 then y else best) x)

/-- Difference of the two leading entries of the descending score list
(`abs(sorted_scores[0] - sorted_scores[1])`). -/
def topGap (ss : List Rat) : Rat :=
  match ss with
  | a :: b :: _ => |a - b|
  | _ => 0

/-- The profiles whose score reaches their own threshold, with their scores,
in profile iteration order (`above_threshold` of the source). -/
def aboveThreshold (text : String) (profiles : List (String × Profile)) :
    List (String × Rat) :=
  profiles.filterMap (fun p =>
    let s := score_profile text p.2
    if s ≥ p.2.threshold.getD (7/10) then some (p.1, s) else none)

/-- `route_message`: score every profile, keep the candidates at or above their
threshold, then run the decision table of the source. -/
def route_message (text : String) (profiles : List (String × Profile)) : RouteResult :=
  let scores := profiles.map (fun p => (p.1, score_profile text p.2))
  let above := aboveThreshold text profiles
  match above with
  | [] =>
      { profile_id := none, skip_reason := some "no_match", scores := scores,
        decision := "no_profile_above_threshold" }
  | [c] =>
      { profile_id := some c.1, skip_reason := none, scores := scores,
        decision := "single_match" }
  | c1 :: c2 :: rest =>
      let ss := sortDesc ((c1 :: c2 :: rest).map (fun p => p.2))
      if 2 ≤ ss.length ∧ topGap ss < 1/10 then
        { profile_id := none, skip_reason := some "tie_close", scores := scores,
          decision := "scores_too_close" }
      else
        { profile_id := (argmaxFirst (c1 :: c2 :: rest)).map (fun p => p.1),
          skip_reason := none, scores := scores, decision := "clear_winner" }

/-- `select_email`: 0 emails → none; 1 email → that email; several emails need
an explicit index, which must be in range, else `ValueError`. -/
def select_email (emails : List String) (pick_index : Option Int) :
    Except String (Option String) :=
  match emails with
  | [] => Except.ok none
  | [e] => Except.ok (some e)
  | _ :: _ :: _ =>
    match pick_index with
    | none => Except.ok none
    | some i =>
        if i < 0 || i ≥ (emails.length : Int) then
          Except.error ("pick_index " ++ toString i ++ " out of range [0, "
            ++ toString ((emails.length : Int) - 1) ++ "]")
        else
          Except.ok (some (emails.getD i.toNat ""))

/-! ## `storage/sqlite.py`

The two tables the claims touch are modelled as lists of rows in insertion
order.  `ingestion_cursors` has primary key `source_id`; `telegram_messages`
has the `UNIQUE(source_id, tg_message_id)` constraint. -/

/-- One row of `ingestion_cursors`. -/
structure CursorRow where
  source_id : String
  tg_chat_id : Int
  last_message_id : Int
  last_message_date : Option String
  last_run_at : String
  last_status : String
  last_error : Option String
deriving DecidableEq, Repr

/-- One row of `telegram_messages` (the columns `insert_message_if_new`
writes; the classification columns stay at their defaults and are omitted). -/
structure MessageRow where
  source_id : String
  tg_chat_id : Int
  tg_message_id : Int
  date : Option String
  sender_id : Option Int
  text : String
  permalink : Option String
  raw_json : String
  ingested_at : String
  processed_status : String
deriving DecidableEq, Repr

/-- `get_cursor`: the row with the given primary key, if any. -/
def get_cursor (tbl : List CursorRow) (source_id : String) : Option CursorRow :=
  tbl.find? (fun r => r.source_id == source_id)

/-- `upsert_cursor`: `INSERT ... ON CONFLICT (source_id) DO UPDATE SET` every
non-key column.  `now` models `datetime.utcnow().isoformat()`. -/
def upsert_cursor (tbl : List CursorRow) (source_id : String) (tg_chat_id : Int)
    (message_id : Int) (date : Option String) (status : String)
    (error : Option String) (now : String) : List CursorRow :=
  let row : CursorRow :=
    { source_id := source_id, tg_chat_id := tg_chat_id, last_message_id := message_id,
      last_message_date := date, last_run_at := now, last_status := status,
      last_error := error }
  if tbl.any (fun r => r.source_id == source_id) then
    tbl.map (fun r => if r.source_id == source_id then row else r)
  else
    tbl ++ [row]

/-- Does a stored message with this `(source_id, tg_message_id)` key exist? -/
def msgKeyP (source_id : String) (tg_message_id : Int) (r : MessageRow) : Bool :=
  r.source_id == source_id && r.tg_message_id == tg_message_id

/-- `insert_message_if_new`: the `INSERT` raises `sqlite3.IntegrityError` when
the `UNIQUE(source_id, tg_message_id)` key already exists; the function
catches it and returns `False` with the table unchanged, else appends the row
and returns `True`. -/
def insert_message_if_new (msgs : List MessageRow) (source_id : String)
    (tg_chat_id : Int) (tg_message_id : Int) (date : Option String)
    (sender_id : Option Int) (sanitized_text : String) (permalink : Option String)
    (raw_json : String) (now : String) : Bool × List MessageRow :=
  let row : MessageRow :=
    { source_id := source_id, tg_chat_id := tg_chat_id,
      tg_message_id := tg_message_id, date := date, sender_id := sender_id,
      text := sanitized_text, permalink := permalink, raw_json := raw_json,
      ingested_at := now, processed_status := "pending" }
  if msgs.any (msgKeyP source_id tg_message_id) then
    (false, msgs)
  else
    (true, msgs ++ [row])

/-! ## `telegram/ingest.py` — `MessageIngestor.ingest_source`

The Telethon client is the external collaborator: one ingestion pass sees one
fetch outcome — a message batch, a `FloodWaitError`, or some other exception
(`_resolve_entity` failures included).  The regex sanitizer `sanitize_text`
and the `json.dumps` raw serialization do not affect any claim and enter the
model as opaque pure functions. -/

/-- A raw Telegram message as used by the ingestion loop. -/
structure Msg where
  id : Int
  text : Option String
  date : Option String
  sender_id : Option Int
deriving DecidableEq, Repr

/-- Outcome of the fetch phase of one pass over one source. -/
inductive FetchOutcome where
  | batch (msgs : List Msg)
  | floodWait (seconds : Nat)
  | err (msg : String)
deriving DecidableEq, Repr

/-- The source-config fields `ingest_source` reads. -/
structure SourceConfig where
  source_id : String
  resolved_entity_id : Option Int
  public_handle : Option String
  tg_chat_id : Option Int
deriving DecidableEq, Repr

/-- The SQLite database state the ingestion pass touches. -/
structure DB where
  cursors : List CursorRow
  messages : List MessageRow
deriving DecidableEq, Repr

/-- The per-source result dict of `ingest_source`. -/
structure IngestResult where
  source_id : String
  fetched : Nat
  new_inserted : Nat
  skipped : Nat
  errors : Nat
  high_water_mark : Option Int
  error_message : Option String
deriving DecidableEq, Repr

/-- The body of the per-message loop of `ingest_source`: skip textless
messages, otherwise sanitize and insert idempotently, counting the result.
The surrounding `try/except` of the source cannot fire in the model because
every modelled step is total. -/
def processOne (sanitize : String → String) (render : Msg → String)
    (dry_run : Bool) (source_id : String) (tg_chat_id : Int)
    (public_handle : Option String) (now : String)
    (acc : IngestResult × List MessageRow) (m : Msg) :
    IngestResult × List MessageRow :=
  let (res, msgs) := acc
  if !truthy m.text then
    ({ res with skipped := res.skipped + 1 }, msgs)
  else
    let permalink :=
      match public_handle with
      | some h =>
          if h ≠ "" then some ("https://t.me/" ++ h ++ "/" ++ toString m.id) else none
      | none => none
    if !dry_run then
      let (inserted, msgs2) := insert_message_if_new msgs source_id tg_chat_id m.id
        m.date m.sender_id (sanitize (m.text.getD "")) permalink (render m) now
      if inserted then
        ({ res with new_inserted := res.new_inserted + 1 }, msgs2)
      else
        ({ res with skipped := res.skipped + 1 }, msgs2)
    else
      ({ res with new_inserted := res.new_inserted + 1 }, msgs)

/-- Comparison of optional ISO-8601 dates (they compare like the datetimes
they encode; `none` sorts first). -/
def dateLt (a b : Option String) : Bool :=
  match a, b with
  | none, none => false
  | none, some _ => true
  | some _, none => false
  | some x, some y => x < y

/-- `max(messages, key=lambda m: m.date)`: first message of maximal date. -/
def maxByDate (m0 : Msg) (rest : List Msg) : Msg :=
  rest.foldl (fun best y => if dateLt best.date y.date then y else best) m0

/-- `ingest_source`.  A `FloodWaitError` is recorded and re-raised
(`Except.error` carrying the database as left by the handler); any other
fetch-phase exception is caught, counted and recorded.  Both failure handlers
call `upsert_cursor` with `message_id = 0`. -/
def ingest_source (sanitize : String → String) (render : Msg → String)
    (cfg : SourceConfig) (db : DB) (fetch : FetchOutcome) (dry_run : Bool)
    (limit : Nat) (now : String) : Except (String × DB) (IngestResult × DB) :=
  let res0 : IngestResult :=
    { source_id := cfg.source_id, fetched := 0, new_inserted := 0, skipped := 0,
      errors := 0, high_water_mark := none, error_message := none }
  let cursor := if dry_run then none else get_cursor db.cursors cfg.source_id
  let last_message_id := match cursor with | none => 0 | some c => c.last_message_id
  let last_message_date : Option String :=
    match cursor with | none => none | some c => c.last_message_date
  let tg_chat_id := (cfg.resolved_entity_id.orElse (fun _ => cfg.tg_chat_id)).getD 0
  match fetch with
  | .floodWait seconds =>
      let emsg := "FloodWaitError: " ++ toString seconds ++ "s"
      let failedCursors := upsert_cursor db.cursors cfg.source_id
        (cfg.resolved_entity_id.getD 0) 0 none "failed" (some emsg) now
      let db2 := if !dry_run then { db with cursors := failedCursors } else db
      Except.error (emsg, db2)
  | .err emsg =>
      let failedCursors := upsert_cursor db.cursors cfg.source_id
        (cfg.resolved_entity_id.getD 0) 0 none "failed" (some emsg) now
      let db2 := if !dry_run then { db with cursors := failedCursors } else db
      Except.ok ({ res0 with error_message := some emsg, errors := 1 }, db2)
  | .batch messages =>
      let messages := messages.take limit
      let res1 := { res0 with fetched := messages.length }
      match messages with
      | [] =>
          let sameCursors := upsert_cursor db.cursors cfg.source_id tg_chat_id
            last_message_id last_message_date "success" none now
          let db2 := if !dry_run then { db with cursors := sameCursors } else db
          Except.ok ({ res1 with high_water_mark := some last_message_id }, db2)
      | m0 :: rest =>
          let (res2, msgs2) := (m0 :: rest).foldl
            (processOne sanitize render dry_run cfg.source_id tg_chat_id
              cfg.public_handle now) (res1, db.messages)
          let high_water_mark := (rest.map (fun m => m.id)).foldl max m0.id
          let lastDate := (maxByDate m0 rest).date
          let res3 := { res2 with high_water_mark := some high_water_mark }
          let newCursors := upsert_cursor db.cursors cfg.source_id tg_chat_id
            high_water_mark lastDate "success" none now
          let db2 :=
            if !dry_run then { cursors := newCursors, messages := msgs2 } else db
          Except.ok (res3, db2)

/-! ## `apply/outbox.py` — `OutboxManager`

The daily `outbox_*.jsonl` files are modelled as one ledger: the list of all
lines of all files in scan order, appends going to the end (the current file
is the last one scanned).  A line either parses to an entry or is invalid
JSON, which every reader skips.  The in-memory dedupe index is a Python set,
modelled as a list observed through membership only. -/

/-- One outbox record as serialized to JSONL by `create_entry` /
`update_entry`.  `routing_metadata` is an opaque JSON payload. -/
structure OutboxEntry where
  outbox_id : String
  profile_id : Option String
  source_id : String
  tg_chat_id : Int
  tg_message_id : Int
  job_title : String
  extracted_emails : List String
  selected_email : Option String
  subject : Option String
  body : Option String
  cv_path : Option String
  status : String
  dedupe_key : Option String
  routing_scores : List (String × Rat)
  routing_metadata : String
  skip_reason : Option String
  created_at : String
  sent_at : Option String
  last_error : Option String
  smtp_response : Option String
  attempt_count : Nat
deriving DecidableEq, Repr

/-- One line of a ledger file: a parsed record or invalid JSON. -/
inductive LedgerLine where
  | ok (e : OutboxEntry)
  | bad (raw : String)
deriving DecidableEq, Repr

/-- The `OutboxManager` state: the ledger files plus the in-memory
`dedupe_cache`. -/
structure OutboxState where
  ledger : List LedgerLine
  dedupe_cache : List String
deriving DecidableEq, Repr

/-- `_load_dedupe_cache`: scan every line of every ledger file, skip the ones
that fail to parse, and collect every truthy `dedupe_key`. -/
def loadDedupeCache (ledger : List LedgerLine) : List String :=
  ledger.filterMap (fun l =>
    match l with
    | .ok e =>
        match e.dedupe_key with
        | some k => if k ≠ "" then some k else none
        | none => none
    | .bad _ => none)

/-- `OutboxManager.__init__`: build the dedupe index once from the ledger. -/
def initOutbox (ledger : List LedgerLine) : OutboxState :=
  { ledger := ledger, dedupe_cache := loadDedupeCache ledger }

/-- `is_duplicate`. -/
def is_duplicate (st : OutboxState) (dedupe_key : String) : Bool :=
  st.dedupe_cache.contains dedupe_key

/-- The dedupe key string `f"{tg_chat_id}:{tg_message_id}:{selected_email}"`. -/
def dedupeKeyOf (tg_chat_id tg_message_id : Int) (email : String) : String :=
  toString tg_chat_id ++ ":" ++ toString tg_message_id ++ ":" ++ email

/-- The arguments of `create_entry`; `outbox_id` models the fresh
`uuid.uuid4()` and `created_at` the creation timestamp. -/
structure CreateArgs where
  outbox_id : String
  profile_id : Option String
  source_id : String
  tg_chat_id : Int
  tg_message_id : Int
  job_title : String
  extracted_emails : List String
  selected_email : Option String
  subject : Option String
  body : Option String
  cv_path : Option String
  routing_scores : List (String × Rat)
  routing_metadata : String
  skip_reason : Option String
  created_at : String
deriving DecidableEq, Repr

/-- `create_entry`: status is `skipped` when a skip reason was supplied,
`draft` when an email was selected, else `skipped` with reason
`no_email_found`; the dedupe key exists only when an email was selected; the
entry is appended to the ledger and its key added to the index. -/
def create_entry (st : OutboxState) (a : CreateArgs) : OutboxEntry × OutboxState :=
  let statusAndReason : String × Option String :=
    if truthy a.skip_reason then ("skipped", a.skip_reason)
    else if truthy a.selected_email then ("draft", a.skip_reason)
    else ("skipped",
      if !truthy a.skip_reason then some "no_email_found" else a.skip_reason)
  let dedupe_key : Option String :=
    if truthy a.selected_email then
      some (dedupeKeyOf a.tg_chat_id a.tg_message_id (a.selected_email.getD ""))
    else none
  let entry : OutboxEntry :=
    { outbox_id := a.outbox_id, profile_id := a.profile_id,
      source_id := a.source_id, tg_chat_id := a.tg_chat_id,
      tg_message_id := a.tg_message_id, job_title := a.job_title,
      extracted_emails := a.extracted_emails, selected_email := a.selected_email,
      subject := a.subject, body := a.body, cv_path := a.cv_path,
      status := statusAndReason.1, dedupe_key := dedupe_key,
      routing_scores := a.routing_scores, routing_metadata := a.routing_metadata,
      skip_reason := statusAndReason.2, created_at := a.created_at,
      sent_at := none, last_error := none, smtp_response := none,
      attempt_count := 0 }
  let cache2 :=
    match dedupe_key with
    | some k => if k ≠ "" then k :: st.dedupe_cache else st.dedupe_cache
    | none => st.dedupe_cache
  (entry, { ledger := st.ledger ++ [.ok entry], dedupe_cache := cache2 })

/-- The scan of `update_entry`: the FIRST parsed line carrying `outbox_id`
(the loop breaks at the first hit, scanning files and lines in order). -/
def findFirstEntry (ledger : List LedgerLine) (outbox_id : String) :
    Option OutboxEntry :=
  ledger.findSome? (fun l =>
    match l with
    | .ok e => if e.outbox_id == outbox_id then some e else none
    | .bad _ => none)

/-- The latest stored version of an entry: the LAST parsed line carrying
`outbox_id` (what the docstring of `update_entry` tells readers to use). -/
def findLastEntry (ledger : List LedgerLine) (outbox_id : String) :
    Option OutboxEntry :=
  findFirstEntry ledger.reverse outbox_id

/-- The record `update_entry` appends: the located version with the new
status, a fresh `sent_at` (the argument when truthy, else now), the given
error fields, and the attempt counter of the located version plus one. -/
def updatedVersion (orig : OutboxEntry) (status : String)
    (sent_at last_error smtp_response : Option String) (now : String) :
    OutboxEntry :=
  { orig with
    status := status,
    sent_at := some (match sent_at with
      | some s => if s ≠ "" then s else now
      | none => now),
    last_error := last_error,
    smtp_response := smtp_response,
    attempt_count := orig.attempt_count + 1 }

/-- `update_entry`: locate a version of `outbox_id` (first hit in scan
order), append the updated record, raise `ValueError` when absent. -/
def update_entry (st : OutboxState) (outbox_id status : String)
    (sent_at last_error smtp_response : Option String) (now : String) :
    Except String OutboxState :=
  match findFirstEntry st.ledger outbox_id with
  | none => Except.error ("Entry " ++ outbox_id ++ " not found")
  | some orig =>
      let upd := updatedVersion orig status sent_at last_error smtp_response now
      Except.ok { st with ledger := st.ledger ++ [.ok upd] }

/-- `get_pending_entries`: every parsed line whose status is `draft` or
`pending`, in scan order; unparseable lines are skipped. -/
def get_pending_entries (st : OutboxState) : List OutboxEntry :=
  st.ledger.filterMap (fun l =>
    match l with
    | .ok e => if e.status == "draft" || e.status == "pending" then some e else none
    | .bad _ => none)

/-- Increment a counter in a Python dict modelled as an association list
(`stats[k] = stats.get(k, 0) + 1`; a missing key is appended). -/
def bump : List (String × Nat) → String → List (String × Nat)
  | [], k => [(k, 1)]
  | (k0, v) :: rest, k =>
      if k0 == k then (k0, v + 1) :: rest else (k0, v) :: bump rest k

/-- The same for dicts keyed by a nullable string (`skip_reason` can be
JSON null, which Python reads back as a `None` key). -/
def bumpOpt : List (Option String × Nat) → Option String → List (Option String × Nat)
  | [], k => [(k, 1)]
  | (k0, v) :: rest, k =>
      if k0 == k then (k0, v + 1) :: rest else (k0, v) :: bumpOpt rest k

/-- Dict lookup with default 0. -/
def statCount (m : List (String × Nat)) (k : String) : Nat :=
  ((m.find? (fun p => p.1 == k)).map (fun p => p.2)).getD 0

/-- The preset counters of the `get_statistics` dict. -/
def initStats : List (String × Nat) :=
  [("total", 0), ("draft", 0), ("pending", 0), ("sent", 0), ("failed", 0),
   ("skipped", 0)]

/-- `get_statistics`: one pass over every ledger line, skipping unparseable
ones, bumping `total`, the status counter, and — for skipped records — the
`by_skip_reason` counter. -/
def get_statistics (st : OutboxState) :
    List (String × Nat) × List (Option String × Nat) :=
  st.ledger.foldl
    (fun acc l =>
      match l with
      | .bad _ => acc
      | .ok e =>
          let m := bump (bump acc.1 "total") e.status
          let b := if e.status == "skipped" then bumpOpt acc.2 e.skip_reason else acc.2
          (m, b))
    (initStats, [])

/-- `get_statistics_by_profile`: per-profile counter dicts, the key being the
(nullable) `profile_id` of each parsed line. -/
def get_statistics_by_profile (st : OutboxState) :
    List (Option String × List (String × Nat)) :=
  st.ledger.foldl
    (fun acc l =>
      match l with
      | .bad _ => acc
      | .ok e => bumpProfile acc e.profile_id e.status)
    []
where
  bumpProfile : List (Option String × List (String × Nat)) → Option String →
      String → List (Option String × List (String × Nat))
    | [], pid, status => [(pid, bump (bump initStats "total") status)]
    | (k, v) :: rest, pid, status =>
        if k == pid then (k, bump (bump v "total") status) :: rest
        else (k, v) :: bumpProfile rest pid status

/-- One call against an `OutboxManager`: an entry creation or an update.
An update whose `outbox_id` is absent raises and leaves the state unchanged
(nothing was appended before the raise). -/
inductive OutboxOp where
  | create (a : CreateArgs)
  | update (outbox_id status : String)
      (sent_at last_error smtp_response : Option String) (now : String)
deriving DecidableEq, Repr

/-- Apply one call to the manager state. -/
def applyOp (st : OutboxState) : OutboxOp → OutboxState
  | .create a => (create_entry st a).2
  | .update outbox_id status sent_at last_error smtp_response now =>
      match update_entry st outbox_id status sent_at last_error smtp_response now with
      | .ok st2 => st2
      | .error _ => st

/-- Run a sequence of calls. -/
def runOps (st : OutboxState) (ops : List OutboxOp) : OutboxState :=
  ops.foldl applyOp st

/-! ## `classify/rules.py`

The static `KEYWORD_GROUPS` table and the `classify` function.  The per-group
loop of the source appends to its accumulators group by group in table order;
it is embedded by the equivalent filter/map traversals below.  Weights are
rationals; the two-decimal rounding of the final score is the identity on
every reachable score (all are multiples of 1/10). -/

/-- One entry of `KEYWORD_GROUPS`. -/
structure KeywordGroup where
  name : String
  weight : Rat
  keywords_en : List String
deriving DecidableEq, Repr

/-- The static keyword table of `classify/rules.py`, in source order. -/
def KEYWORD_GROUPS : List KeywordGroup := [
  { name := "tech_core_high", weight := 1, keywords_en := [
      "software", "developer", "programmer", "engineer", "coding", "coder", "full stack",
      "full-stack", "backend", "back-end", "front-end", "frontend", "web app", "webapp",
      "web development", "website", "api", "API", "microservice", "micro-service", "soa",
      "service oriented", "database", "db", "sql", "SQL", "postgresql", "postgres", "psql",
      "mongodb", "mysql", "oracle", "database admin", "dba", "data engineer",
      "software engineer", "application developer", "app developer", "web developer",
      "webdev", "mobile developer", "ios", "android", "react", "angular", "vue", "django",
      "flask", "spring", "spring boot", ".net", "dotnet", "java", "c++", "c#", "c sharp",
      "python", "ruby", "php", "laravel", "symfony", "express", "nodejs", "node.js",
      "javascript", "typescript", "go", "golang", "rust", "swift", "kotlin", "scala",
      "server-side", "serverside", "backend dev", "backend development", "rest", "restful",
      "rest api", "graphql", "grpc", "soap", "web service", "web services", "client-server",
      "mvc", "mvp", "sql developer", "database developer", "data modelling", "data modeling",
      "nosql", "newsql", "document database", "relational database", "query optimization",
      "database design", "data architecture", "architecture", "software architecture",
      "system design", "technical design", "design patterns", "solid", "clean code", "agile",
      "scrum", "kanban"
    ] },
  { name := "automation_high", weight := 1, keywords_en := [
      "automation", "automate", "automated", "automating", "script", "scripting", "scripts",
      "scripting language", "python", "PYTHON", "node", "nodejs", "node.js", "javascript",
      "js", "typescript", "bash", "shell", "shell scripting", "shell script", "powershell",
      "windows scripting", "cron", "scheduler", "scheduling", "scheduled task", "etl",
      "extract transform load", "data pipeline", "workflow", "work-flow", "pipeline",
      "pipelining", "orchestration", "orchestrator", "airflow", "dag",
      "directed acyclic graph", "bot", "chatbot", "telegram bot", "discord bot", "webhook",
      "webhooks", "api integration", "integration", "integrations", "rpa",
      "robotic process automation", "macros", "macro", "automation engineer",
      "automation specialist", "scripting language", "interpreted language",
      "dynamic language", "continuous integration", "ci", "continuous delivery", "cd",
      "build automation", "deployment automation", "release automation", "data processing",
      "data pipeline", "batch processing", "stream processing", "event-driven", "event driven"
    ] },
  { name := "devops_high", weight := 1, keywords_en := [
      "devops", "site reliability engineer", "sre", "ci/cd", "cicd", "ci cd",
      "continuous integration", "continuous deployment", "continuous delivery",
      "infrastructure as code", "iaac", "docker", "container", "containers",
      "containerization", "kubernetes", "k8s", "kubernetes cluster", "k8s cluster",
      "container orchestration", "pod", "deployment", "deploying", "helm", "chart", "kompose",
      "docker compose", "aws", "amazon web services", "ec2", "s3", "lambda", "gcp",
      "google cloud", "gke", "google kubernetes engine", "azure", "microsoft azure", "aks",
      "azure kubernetes service", "cloud computing", "cloud native", "serverless",
      "function as a service", "faas", "terraform", "ansible", "chef", "puppet", "saltstack",
      "cloudformation", "arm template", "linux", "unix", "unix-like", "posix",
      "windows server", "windows admin", "system admin", "red hat", "rhel", "centos",
      "ubuntu", "debian", "server", "servers", "infrastructure", "infra", "deployment",
      "deploy", "release engineering", "version control", "git", "gitlab", "github",
      "bitbucket", "vcs", "configuration management", "configuration", "config management",
      "monitoring", "logging", "observability", "metrics", "alerting", "prometheus",
      "grafana", "elk", "elk stack", "splunk", "network", "networking", "cdn",
      "content delivery network", "load balancer", "reverse proxy", "nginx", "apache",
      "scaling", "scalability", "horizontal scaling", "vertical scaling", "high availability",
      "ha", "disaster recovery", "dr"
    ] },
  { name := "ai_ml_high", weight := 1, keywords_en := [
      "ai", "artificial intelligence", "machine intelligence", "ml", "machine learning",
      "statistical learning", "llm", "large language model", "language model", "gpt",
      "chatgpt", "gpt-4", "claude", "gemini", "bard", "openai", "anthropic", "google ai",
      "hugging face", "prompt", "prompting", "prompt engineering", "prompt design",
      "in-context learning", "few-shot", "zero-shot", "fine-tuning", "training", "inference",
      "model deployment", "nlp", "natural language processing", "text analytics",
      "text mining", "sentiment analysis", "text classification", "named entity recognition",
      "ner", "part of speech tagging", "pos tagging", "tokenization", "embedding",
      "word embeddings", "vector embeddings", "transformer", "transformers",
      "attention mechanism", "self-attention", "bert", "roberta", "t5", "llama", "mistral",
      "phi", "computer vision", "cv", "image processing", "image recognition",
      "object detection", "object recognition", "image classification", "segmentation",
      "semantic segmentation", "instance segmentation", "face recognition", "ocr",
      "optical character recognition", "video analysis", "video processing", "agent",
      "agents", "ai agent", "autonomous agent", "multi-agent system", "multiagent",
      "swarm intelligence", "reinforcement learning", "rl", "deep rl", "q-learning",
      "data science", "data scientist", "data analytics", "data analysis", "big data",
      "data engineering", "data pipeline", "etl", "pandas", "numpy", "scipy", "scikit-learn",
      "sklearn", "matplotlib", "jupyter", "notebook", "colab", "kaggle", "tensorflow", "tf",
      "keras", "pytorch", "torch", "caffe", "mxnet", "theano", "CNTK", "neural network",
      "neural net", "deep learning", "dl", "deepnet", "cnn", "rnn", "lstm", "gru", "gan",
      "generative", "discriminative", "backpropagation", "gradient descent", "optimization",
      "recommendation system", "recommender", "personalization", "search engine",
      "information retrieval", "ranking", "chatbot", "conversational ai", "virtual assistant",
      "voice assistant", "speech recognition", "speech to text", "text to speech", "tts",
      "generative ai", "genai", "text generation", "image generation", "foundation model",
      "pretrained", "transfer learning"
    ] },
  { name := "security_high", weight := 1, keywords_en := [
      "security", "cybersecurity", "cyber security", "infosec", "pentest",
      "penetration testing", "pen testing", "pen-test", "ethical hacking", "white hat",
      "white-hat", "security research", "soc", "security operations center",
      "security analyst", "siem", "security information", "event management", "soc analyst",
      "tier 1", "tier 2", "tier 3 security", "vulnerability", "vulnerabilities",
      "vulnerability assessment", "vulnerability scanning", "vuln scan",
      "security assessment", "penetration testing", "pentesting", "security audit", "owasp",
      "owasp top 10", "security standard", "iso 27001", "pci dss", "gdpr", "hipaa",
      "compliance", "malware", "malware analysis", "ransomware", "virus", "phishing",
      "social engineering", "threat intelligence", "threat hunting", "incident response",
      "ir", "incident handling", "forensics", "secure coding", "security review",
      "code review", "security testing", "application security", "appsec", "web security",
      "network security", "endpoint security", "mobile security", "cloud security",
      "injection", "sql injection", "xss", "csrf", "cross-site scripting", "authentication",
      "authorization", "zero trust", "encryption", "cryptography", "cryptographic",
      "firewall", "ids", "ips", "intrusion detection", "intrusion prevention", "dlp",
      "data loss prevention", "metasploit", "burp suite", "nmap", "wireshark", "snort",
      "splunk", "qradar", "arcsight", "qualys", "rapid7"
    ] },
  { name := "it_support_mid", weight := (7 : Rat) / 10, keywords_en := [
      "it support", "it support specialist", "technical support", "helpdesk", "help desk",
      "service desk", "support analyst", "sysadmin", "system administrator", "linux admin",
      "windows admin", "system administration", "systems administration", "systems admin",
      "server administration", "server admin", "infrastructure administration", "network",
      "networking", "network engineer", "network administrator", "network support",
      "network operations", "netops", "noc", "dns", "domain", "domain name system", "bind",
      "vpn", "virtual private network", "remote access", "ip addressing", "subnetting",
      "routing", "switch", "router", "active directory", "ad", "ldap", "domain controller",
      "dc", "identity management", "idm", "iam", "access management", "user management",
      "account management", "provisioning", "deprovisioning", "desktop support",
      "endpoint management", "device management", "desktop administration", "windows desktop",
      "macos", "linux desktop", "endpoint", "endpoints", "workstation", "laptop",
      "mobile device", "it operations", "it ops", "operations", "maintenance", "break-fix",
      "troubleshooting", "issue resolution", "technical support", "tier 1", "tier 2",
      "system monitoring", "performance monitoring", "log analysis", "alerting", "on-call",
      "incident management", "ticketing", "windows server", "windows administration",
      "microsoft", "exchange", "office 365", "o365", "intune", "sccm", "system center",
      "linux administration", "linux engineering", "rhel", "centos", "ubuntu",
      "shell scripting", "bash scripting", "linux commands", "vmware", "virtualization",
      "hypervisor", "virtual machine", "vm", "hyper-v", "virtualbox", "kvm", "xen"
    ] },
  { name := "remote_low", weight := (2 : Rat) / 10, keywords_en := [
      "remote", "remote work", "remote job", "remote position", "wfh", "work from home",
      "work-from-home", "telecommute", "telecommuting", "telework", "teleworking", "virtual",
      "virtual office", "distributed team", "location independent", "location-independent",
      "freelance", "freelancer", "freelancing", "contract", "contractor", "contracting",
      "contract-to-hire", "contract position", "project-based", "project based",
      "project work", "consultant", "consulting", "independent", "self-employed", "temporary",
      "temp", "contract position", "flexible", "flexible schedule", "flexitime", "hybrid",
      "hybrid work", "remote-first", "digital nomad", "nomad", "location independent",
      "asynchronous", "async", "async communication", "global", "worldwide",
      "distributed team", "remote-friendly", "remote ok", "remote possible",
      "work from anywhere", "wfa", "home-based"
    ] },
  { name := "negative_nontech", weight := -1, keywords_en := [
      "cashier", "cashiering", "cash register", "store clerk", "waiter", "waitress",
      "bartender", "barista", "barback", "sommelier", "host", "hostess", "food service",
      "restaurant", "fast food", "food runner", "delivery driver", "food delivery",
      "uber eats", "doordash", "grubhub", "restaurant server", "food server",
      "serving tables", "table server", "driver", "truck driver", "delivery driver",
      "chauffeur", "warehouse", "warehousing", "picker", "packer", "stock clerk",
      "construction", "laborer", "builder", "tradesperson", "carpenter", "electrician",
      "plumber", "welder", "painter", "cleaner", "cleaning", "custodian", "janitor",
      "caretaker", "maintenance", "repair", "technician", "mechanic", "auto repair",
      "landscaping", "gardener", "groundkeeper", "lawn care", "security guard", "guard",
      "bouncer", "doorman", "loss prevention", "store detective", "loss prevention officer",
      "receptionist", "front desk", "customer service representative", "csr", "call center",
      "call center agent", "telemarketer", "telemarketing", "customer support",
      "support agent", "phone support", "teacher", "teaching", "tutor", "education",
      "instructor", "professor", "lecturer", "academic", "faculty", "teacher aide",
      "teaching assistant", "nurse", "doctor", "physician", "medical", "healthcare",
      "caregiver", "home health aide", "medical assistant", "retail", "sales associate",
      "salesperson", "sales representative", "account manager", "business development",
      "sales executive", "insurance agent", "real estate agent", "data entry",
      "data entry clerk", "typist", "filing", "administrative assistant", "admin assistant",
      "office clerk", "receptionist", "office admin", "hotel", "hospitality", "hotel staff",
      "concierge", "taxi", "cab driver", "delivery person", "courier", "manufacturing",
      "factory", "assembly line", "production worker", "quality control", "qc", "inspector",
      "production", "loader", "unloader", "mover", "warehouse worker", "stocking",
      "inventory", "stock clerk", "general labor", "manual labor", "physical labor"
    ] }
]

/-- The lowered keyword list of a group
(`group_keywords = [k.lower() for k in group_data["keywords_en"]]`). -/
def groupKeywords (g : KeywordGroup) : List String :=
  g.keywords_en.map lowerStr

/-- `group_matches` for one group: the lowered keyword list entries that
word-boundary match the lowered text, in list order. -/
def groupMatches (tl : String) (g : KeywordGroup) : List String :=
  (groupKeywords g).filter (fun kw => wbSearchS tl kw)

/-- The groups the loop treats as positive hits: non-negative name and at
least one keyword match, in table order. -/
def matchedGroupList (tl : String) : List KeywordGroup :=
  KEYWORD_GROUPS.filter
    (fun g => g.name != "negative_nontech" && !(groupMatches tl g).isEmpty)

/-- The `matched_groups` accumulator. -/
def matchedGroups (tl : String) : List String :=
  (matchedGroupList tl).map (fun g => g.name)

/-- The `weights_applied` accumulator: one weight per matched positive group. -/
def weightsApplied (tl : String) : List Rat :=
  (matchedGroupList tl).map (fun g => g.weight)

/-- The `matched_keywords` accumulator: the matches of every positive matched
group, concatenated in table order. -/
def matchedKeywords (tl : String) : List String :=
  ((matchedGroupList tl).map (groupMatches tl)).flatten

/-- The `negative_matches` accumulator (matches of the group named
`negative_nontech`). -/
def negativeMatches (tl : String) : List String :=
  ((KEYWORD_GROUPS.filter (fun g => g.name == "negative_nontech")).map
    (groupMatches tl)).flatten

/-- The `score_breakdown` dict: per matched positive group, its weight summed
once per matching keyword list entry. -/
def scoreBreakdown (tl : String) : List (String × Rat) :=
  (matchedGroupList tl).map
    (fun g => (g.name, g.weight * ((groupMatches tl g).length : Rat)))

/-- `base_score = sum(weights_applied)` before any guardrail. -/
def baseScorePre (tl : String) : Rat := (weightsApplied tl).sum

/-- The six group names the guardrails treat as technical signal. -/
def techGroupNames : List String :=
  ["tech_core_high", "automation_high", "devops_high", "ai_ml_high",
   "security_high", "it_support_mid"]

/-- `tech_keywords_matched`. -/
def techMatched (tl : String) : Bool :=
  techGroupNames.any (fun g => (matchedGroups tl).contains g)

/-- `remote_keywords_matched`. -/
def remoteMatched (tl : String) : Bool :=
  ["remote_low"].any (fun g => (matchedGroups tl).contains g)

/-- Guardrail A of the source: remote signal without technical signal. -/
def trigA (tl : String) : Bool := remoteMatched tl && !techMatched tl

/-- The multi-word negative matches (`len(m.split()) > 1`). -/
def negativePhrases (tl : String) : List String :=
  (negativeMatches tl).filter (fun m => 1 < (wordsOf m).length)

/-- Does some multi-word negative phrase contain (as a substring) some
matched positive keyword?  This is the nested loop of the source, whose body
only raises the guardrail flag and breaks, hence an existential. -/
def negPhraseContainsTech (tl : String) : Bool :=
  (negativePhrases tl).any (fun ph =>
    (matchedKeywords tl).any (fun kw => substrS kw (lowerStr ph)))

/-- Guardrail B of the source: a containment hit fires only when no tech
group matched or at most one positive keyword matched in total. -/
def trigB (tl : String) : Bool :=
  !(negativeMatches tl).isEmpty && !(negativePhrases tl).isEmpty &&
    negPhraseContainsTech tl &&
    (!techMatched tl || (matchedKeywords tl).length ≤ 1)

/-- The final negative filter of the source: negative matches with no
technical group and no earlier guardrail. -/
def trigC (tl : String) : Bool :=
  !(negativeMatches tl).isEmpty && !trigA tl && !trigB tl && !techMatched tl

/-- Any guardrail fired (each of them zeroes the base score). -/
def guardrailTriggered (tl : String) : Bool := trigA tl || trigB tl || trigC tl

/-- The base score after the guardrails. -/
def baseScore (tl : String) : Rat :=
  if guardrailTriggered tl then 0 else baseScorePre tl

/-- The fixed emission order of the reason labels. -/
def reasonOrder : List String :=
  ["Software/IT development", "Automation/scripting", "DevOps/cloud", "AI/ML",
   "Security", "IT support", "Remote work"]

/-- The reason label of a positive group. -/
def groupLabel (g : String) : String :=
  if g == "tech_core_high" then "Software/IT development"
  else if g == "automation_high" then "Automation/scripting"
  else if g == "devops_high" then "DevOps/cloud"
  else if g == "ai_ml_high" then "AI/ML"
  else if g == "security_high" then "Security"
  else if g == "it_support_mid" then "IT support"
  else if g == "remote_low" then "Remote work"
  else ""

/-- The `reasons` list: the fixed chain of membership tests of the source. -/
def reasonsOf (tl : String) : List String :=
  (if (matchedGroups tl).contains "tech_core_high" then ["Software/IT development"] else [])
  ++ (if (matchedGroups tl).contains "automation_high" then ["Automation/scripting"] else [])
  ++ (if (matchedGroups tl).contains "devops_high" then ["DevOps/cloud"] else [])
  ++ (if (matchedGroups tl).contains "ai_ml_high" then ["AI/ML"] else [])
  ++ (if (matchedGroups tl).contains "security_high" then ["Security"] else [])
  ++ (if (matchedGroups tl).contains "it_support_mid" then ["IT support"] else [])
  ++ (if (matchedGroups tl).contains "remote_low" && techMatched tl then ["Remote work"] else [])

/-- Floor of a rational (the denominator of a `Rat` is positive, and `fdiv`
is division rounding toward minus infinity). -/
def ratFloor (q : Rat) : Int := q.num.fdiv q.den

/-- Model of `round(x, 2)`.  Every reachable score is a multiple of 1/10, on
which any round-to-two-decimals is the identity, so the tie-breaking rule is
immaterial. -/
def round2 (q : Rat) : Rat := (ratFloor (q * 100 + 1 / 2) : Rat) / 100

/-- The metadata dict of a classification. -/
structure ClassifyMetadata where
  matched_keywords : List String
  matched_groups : List String
  weights_applied : List Rat
  negative_matches : List String
  score_breakdown : List (String × Rat)
  guardrail_triggered : Bool
deriving DecidableEq, Repr

/-- The result of `classify`. -/
structure ClassificationResult where
  is_ai_relevant : Nat
  score : Rat
  reasons : List String
  metadata : ClassifyMetadata
deriving DecidableEq, Repr

/-- `classify`: empty text short-circuits; otherwise lower the text, run the
group scan, apply the guardrails, threshold at 0.7 and emit the reasons. -/
def classify (text : String) : ClassificationResult :=
  if text == "" then
    let emptyMeta : ClassifyMetadata :=
      { matched_keywords := [], matched_groups := [], weights_applied := [],
        negative_matches := [], score_breakdown := [],
        guardrail_triggered := false }
    { is_ai_relevant := 0, score := 0, reasons := [], metadata := emptyMeta }
  else
    let tl := lowerStr text
    let meta : ClassifyMetadata :=
      { matched_keywords := matchedKeywords tl,
        matched_groups := matchedGroups tl,
        weights_applied := weightsApplied tl,
        negative_matches := negativeMatches tl,
        score_breakdown := scoreBreakdown tl,
        guardrail_triggered := guardrailTriggered tl }
    { is_ai_relevant := if baseScore tl ≥ 7/10 then 1 else 0,
      score := round2 (baseScore tl),
      reasons := reasonsOf tl,
      metadata := meta }

/-! ## Statement-side definitions and concrete fixtures -/

/-- First-occurrence deduplication of a string list (the set of distinct
phrases, in first-seen order). -/
def distinctAux (seen : List String) : List String → List String
  | [] => []
  | x :: xs =>
      if seen.contains x then distinctAux seen xs
      else x :: distinctAux (x :: seen) xs

/-- The distinct members of a string list, in first-seen order. -/
def distinctList (l : List String) : List String := distinctAux [] l

/-- The number of distinct (lowered) phrases of a keyword list that
word-boundary match the text — the unit of the per-phrase score wording. -/
def matchedPhraseCount (text : String) (kws : List String) : Nat :=
  ((distinctList (kws.map lowerStr)).filter
    (fun kw => wbSearchS (lowerStr text) kw)).length

/-- Modelled from the spec: the classification score formula stated in
spec §4.2 — the sum over all non-negative keyword groups of the group weight
times the number of distinct phrases of that group matched in the text.  The
source computes a different quantity; this definition exists to compare the
two. -/
def specScoreDistinctPhrases (text : String) : Rat :=
  ((KEYWORD_GROUPS.filter (fun g => g.weight ≥ 0)).map
    (fun g => g.weight *
      (((distinctList (groupKeywords g)).filter
        (fun kw => wbSearchS (lowerStr text) kw)).length : Rat))).sum

/-- Fixture: a stored cursor at watermark 100 for source `src`. -/
def c2Cursor : CursorRow :=
  { source_id := "src", tg_chat_id := 77, last_message_id := 100,
    last_message_date := some "2026-01-01T00:00:00", last_run_at := "t0",
    last_status := "success", last_error := none }

/-- Fixture: the source configuration of `src`. -/
def c2Cfg : SourceConfig :=
  { source_id := "src", resolved_entity_id := some 77,
    public_handle := some "srcchan", tg_chat_id := some 77 }

/-- Fixture: the cursor row left behind by the rate-limit failure handler. -/
def c2FailedCursor : CursorRow :=
  { source_id := "src", tg_chat_id := 77, last_message_id := 0,
    last_message_date := none, last_run_at := "t1", last_status := "failed",
    last_error := some "FloodWaitError: 30s" }

/-- Fixture: a message-store row for message 9 of source `src`. -/
def c3Row : MessageRow :=
  { source_id := "src", tg_chat_id := 77, tg_message_id := 9,
    date := some "2026-01-01T00:00:00", sender_id := some 5,
    text := "python developer needed", permalink := none, raw_json := "raw",
    ingested_at := "t0", processed_status := "pending" }

/-- Fixture: the same message fetched again. -/
def c3Msg : Msg :=
  { id := 9, text := some "python developer needed",
    date := some "2026-01-01T00:00:00", sender_id := some 5 }

/-- Fixture: creation arguments with a selected email (claim C1). -/
def c1Args : CreateArgs :=
  { outbox_id := "X", profile_id := some "backend", source_id := "src",
    tg_chat_id := 5, tg_message_id := 9, job_title := "Backend Developer",
    extracted_emails := ["hr@acme.com"], selected_email := some "hr@acme.com",
    subject := some "Application", body := some "Hello", cv_path := some "cv.pdf",
    routing_scores := [("backend", 2)], routing_metadata := "meta",
    skip_reason := none, created_at := "t0" }

/-- Fixture: creation arguments for the update-semantics scenario (claim C9). -/
def c9Args : CreateArgs :=
  { outbox_id := "X", profile_id := some "backend", source_id := "src",
    tg_chat_id := 5, tg_message_id := 9, job_title := "Backend Developer",
    extracted_emails := ["hr@acme.com"], selected_email := some "hr@acme.com",
    subject := some "Application", body := some "Hello", cv_path := some "cv.pdf",
    routing_scores := [("backend", 2)], routing_metadata := "meta",
    skip_reason := none, created_at := "t0" }

/-- Fixture: the manager state after creating entry `X` and updating it twice
(`failed`, then `sent`) — two successive updates of one entry. -/
def c9State : OutboxState :=
  runOps (initOutbox [])
    [.create c9Args,
     .update "X" "failed" none (some "boom") none "t1",
     .update "X" "sent" none none (some "250 OK") "t2"]

/-- Fixture: creation arguments for the aggregate-reduction scenario (C5). -/
def c5Args : CreateArgs :=
  { outbox_id := "X", profile_id := some "backend", source_id := "src",
    tg_chat_id := 5, tg_message_id := 9, job_title := "Backend Developer",
    extracted_emails := ["hr@acme.com"], selected_email := some "hr@acme.com",
    subject := some "Application", body := some "Hello", cv_path := some "cv.pdf",
    routing_scores := [("backend", 2)], routing_metadata := "meta",
    skip_reason := none, created_at := "t0" }

/-- Fixture: entry `X` created as a draft and then updated to `sent`. -/
def c5State : OutboxState :=
  runOps (initOutbox [])
    [.create c5Args, .update "X" "sent" (some "t1") none (some "250 OK") "t1"]

/-- Fixture: a two-profile routing configuration (claim C6 witness). -/
def c6Profiles : List (String × Profile) :=
  [("backend", { keywords_positive := ["python", "developer"],
                 keywords_negative := ["sales"], threshold := none }),
   ("qa", { keywords_positive := ["testing"], keywords_negative := [],
            threshold := some (1/2) })]

/-- Fixture: the full classification of `"python developer"` (claims C4, C8). -/
def pdResult : ClassificationResult :=
  { is_ai_relevant := 1, score := 2,
    reasons := ["Software/IT development", "Automation/scripting"],
    metadata :=
      { matched_keywords := ["developer", "python", "python", "python"],
        matched_groups := ["tech_core_high", "automation_high"],
        weights_applied := [1, 1],
        negative_matches := [],
        score_breakdown := [("tech_core_high", 2), ("automation_high", 2)],
        guardrail_triggered := false } }

/-- Fixture: the full classification of `"restaurant server"` (claim C7). -/
def rsResult : ClassificationResult :=
  { is_ai_relevant := 0, score := 0, reasons := ["DevOps/cloud"],
    metadata :=
      { matched_keywords := ["server"],
        matched_groups := ["devops_high"],
        weights_applied := [1],
        negative_matches := ["restaurant", "restaurant server"],
        score_breakdown := [("devops_high", 1)],
        guardrail_triggered := true } }

/-- Fixture: the full classification of `"restaurant server servers"`
(claim C7). -/
def rssResult : ClassificationResult :=
  { is_ai_relevant := 1, score := 1, reasons := ["DevOps/cloud"],
    metadata :=
      { matched_keywords := ["server", "servers"],
        matched_groups := ["devops_high"],
        weights_applied := [1],
        negative_matches := ["restaurant", "restaurant server"],
        score_breakdown := [("devops_high", 2)],
        guardrail_triggered := false } }

/-! ## Theorems -/

set_option maxRecDepth 100000 in
set_option maxHeartbeats 2000000 in
/-- Evaluation of the classifier on `"python developer"`. -/
theorem classify_python_developer_eval : classify "python developer" = pdResult := by
  with_unfolding_all decide

set_option maxRecDepth 100000 in
set_option maxHeartbeats 2000000 in
/-- Evaluation of the classifier on `"restaurant server"`. -/
theorem classify_restaurant_server_eval : classify "restaurant server" = rsResult := by
  with_unfolding_all decide

set_option maxRecDepth 100000 in
set_option maxHeartbeats 2000000 in
/-- Evaluation of the classifier on `"restaurant server servers"`. -/
theorem classify_restaurant_server_servers_eval :
    classify "restaurant server servers" = rssResult := by
  with_unfolding_all decide


/-- Claim C10: with exactly one extracted email, `select_email` returns that
email and never raises, whatever `pick_index` holds (negative and
out-of-range values included); the out-of-range `ValueError` can only be
raised when at least two emails were extracted and `pick_index` is not
`None`. -/
theorem select_email_singleton_and_error_bounds :
    (∀ (e : String) (p : Option Int), select_email [e] p = Except.ok (some e)) ∧
    (∀ (emails : List String) (p : Option Int) (msg : String),
      select_email emails p = Except.error msg →
        2 ≤ emails.length ∧ ∃ i, p = some i) := by
  constructor
  · intro e p
    rfl
  · intro emails p msg h
    match emails, p with
    | [], _ => simp [select_email] at h
    | [e], _ => simp [select_email] at h
    | a :: b :: rest, none => simp [select_email] at h
    | a :: b :: rest, some i =>
        refine ⟨by simp, i, rfl⟩

/-- Witness for C10 at a one-element list with a negative index and at a
two-element list with an out-of-range index. -/
theorem select_email_singleton_and_error_bounds_witness :
    select_email ["hr@acme.com"] (some (-3)) = Except.ok (some "hr@acme.com") ∧
    (2 ≤ (["hr@acme.com", "dev@acme.com"] : List String).length ∧
      ∃ i, (some 5 : Option Int) = some i) := by
  constructor
  · exact select_email_singleton_and_error_bounds.1 "hr@acme.com" (some (-3))
  · exact select_email_singleton_and_error_bounds.2 ["hr@acme.com", "dev@acme.com"]
      (some 5) "pick_index 5 out of range [0, 1]" (by rfl)

/-- Claim C3: inserting a message whose `(source_id, tg_message_id)` already
exists is a silent no-op — `insert_message_if_new` returns `False` with the
table unchanged (it catches the constraint violation instead of raising),
exactly one row with that key remains, and the ingestion loop counts the
message as skipped, not as an error. -/
theorem insert_message_idempotent_counts_skipped
    (msgs : List MessageRow) (source_id : String) (tg_chat_id : Int) (m : Msg)
    (sanitize : String → String) (render : Msg → String)
    (public_handle : Option String) (now : String) (res : IngestResult)
    (htext : truthy m.text = true)
    (hkey : msgs.countP (msgKeyP source_id m.id) = 1) :
    (∀ date sender_id stext permalink raw,
      insert_message_if_new msgs source_id tg_chat_id m.id date sender_id stext
        permalink raw now = (false, msgs)) ∧
    (insert_message_if_new msgs source_id tg_chat_id m.id m.date m.sender_id
        (sanitize (m.text.getD "")) none (render m) now).2.countP
      (msgKeyP source_id m.id) = 1 ∧
    processOne sanitize render false source_id tg_chat_id public_handle now
      (res, msgs) m = ({ res with skipped := res.skipped + 1 }, msgs) := by
  have hany : msgs.any (msgKeyP source_id m.id) = true := by
    rw [List.any_eq_true]
    have hpos : 0 < msgs.countP (msgKeyP source_id m.id) := by omega
    rw [List.countP_pos_iff] at hpos
    exact hpos
  have hins : ∀ date sender_id stext permalink raw,
      insert_message_if_new msgs source_id tg_chat_id m.id date sender_id stext
        permalink raw now = (false, msgs) := by
    intro date sender_id stext permalink raw
    simp [insert_message_if_new, hany]
  refine ⟨hins, by rw [hins]; exact hkey, ?_⟩
  simp only [processOne, htext, Bool.not_true, Bool.false_eq_true, if_false,
    Bool.not_false, if_true, hins]

/-- Witness for C3: re-ingesting stored message 9 of source `src`. -/
theorem insert_message_idempotent_counts_skipped_witness :
    (insert_message_if_new [c3Row] "src" 77 c3Msg.id c3Msg.date c3Msg.sender_id
        ((fun s => s) (c3Msg.text.getD "")) none ((fun _ => "raw") c3Msg)
        "t1").2.countP (msgKeyP "src" c3Msg.id) = 1 ∧
    processOne (fun s => s) (fun _ => "raw") false "src" 77 none "t1"
      ({ source_id := "src", fetched := 1, new_inserted := 0, skipped := 0,
         errors := 0, high_water_mark := none, error_message := none }, [c3Row])
      c3Msg =
      ({ source_id := "src", fetched := 1, new_inserted := 0, skipped := 1,
         errors := 0, high_water_mark := none, error_message := none },
       [c3Row]) := by
  have h := insert_message_idempotent_counts_skipped [c3Row] "src" 77 c3Msg
    (fun s => s) (fun _ => "raw") none "t1"
    { source_id := "src", fetched := 1, new_inserted := 0, skipped := 0,
      errors := 0, high_water_mark := none, error_message := none }
    (by with_unfolding_all decide) (by with_unfolding_all decide)
  exact ⟨h.2.1, h.2.2⟩

/-- Claim C2 (watermark monotonicity) fails in the code: both failure
handlers of `ingest_source` call `upsert_cursor` with `message_id = 0`.
Evaluated at the failing input — a stored cursor at watermark 100 and a pass
that ends in a rate-limit failure — the persisted `last_message_id` drops
from 100 to 0. -/
theorem ingest_floodwait_resets_watermark :
    (get_cursor [c2Cursor] "src").map (fun c => c.last_message_id) = some 100 ∧
    ingest_source (fun s => s) (fun _ => "raw") c2Cfg
        { cursors := [c2Cursor], messages := [] } (.floodWait 30) false 200 "t1"
      = Except.error ("FloodWaitError: 30s",
          { cursors := [c2FailedCursor], messages := [] }) ∧
    (get_cursor [c2FailedCursor] "src").map (fun c => c.last_message_id) = some 0 := by
  refine ⟨by rfl, ?_, by rfl⟩
  with_unfolding_all rfl

/-- A dedupe key is never the empty string: it contains two colons. -/
theorem dedupeKeyOf_ne_empty (c m : Int) (e : String) : dedupeKeyOf c m e ≠ "" := by
  intro h
  have hlen := congrArg String.length h
  have l1 : (":" : String).length = 1 := rfl
  have l0 : ("" : String).length = 0 := rfl
  simp only [dedupeKeyOf, String.length_append, l1, l0] at hlen
  omega

/-- The shape of the state `create_entry` returns: the new entry appended to
the ledger and its truthy dedupe key added to the index. -/
theorem create_entry_state (st : OutboxState) (a : CreateArgs) :
    ∃ entry, create_entry st a = (entry,
      { ledger := st.ledger ++ [.ok entry],
        dedupe_cache := match entry.dedupe_key with
          | some k => if k ≠ "" then k :: st.dedupe_cache else st.dedupe_cache
          | none => st.dedupe_cache }) ∧
      entry.dedupe_key = (if truthy a.selected_email then
        some (dedupeKeyOf a.tg_chat_id a.tg_message_id (a.selected_email.getD ""))
        else none) := by
  exact ⟨_, rfl, rfl⟩

/-- The rebuilt index of a one-line ledger. -/
theorem loadDedupeCache_single_ok (e : OutboxEntry) :
    loadDedupeCache [.ok e] = (match e.dedupe_key with
      | some k => if k ≠ "" then [k] else []
      | none => []) := by
  cases hk : e.dedupe_key with
  | none => simp [loadDedupeCache, hk]
  | some k =>
      by_cases hne : k = ""
      · simp [loadDedupeCache, hk, hne]
      · simp [loadDedupeCache, hk, hne]

/-- A successful `update_entry` located a first version and appended the
updated record, leaving everything else (the dedupe cache included)
unchanged. -/
theorem update_entry_ok_elim {st : OutboxState} {outbox_id status : String}
    {sent_at last_error smtp_response : Option String} {now : String}
    {st2 : OutboxState}
    (h : update_entry st outbox_id status sent_at last_error smtp_response now
      = Except.ok st2) :
    ∃ orig, findFirstEntry st.ledger outbox_id = some orig ∧
      st2 = { st with ledger := st.ledger ++
        [.ok (updatedVersion orig status sent_at last_error smtp_response now)] } := by
  unfold update_entry at h
  cases hf : findFirstEntry st.ledger outbox_id with
  | none => rw [hf] at h; exact absurd h (by simp)
  | some orig =>
      rw [hf] at h
      simp only [Except.ok.injEq] at h
      exact ⟨orig, rfl, h.symm⟩

/-- What `findFirstEntry` returns is a parsed line of the ledger carrying the
requested id. -/
theorem findFirstEntry_eq_some {ledger : List LedgerLine} {id : String}
    {e : OutboxEntry} (h : findFirstEntry ledger id = some e) :
    LedgerLine.ok e ∈ ledger ∧ e.outbox_id = id := by
  induction ledger with
  | nil => simp [findFirstEntry, List.findSome?] at h
  | cons l rest ih =>
      cases l with
      | ok e0 =>
          by_cases heq : e0.outbox_id = id
          · simp [findFirstEntry, List.findSome?, heq] at h
            subst h
            exact ⟨List.mem_cons_self _ _, heq⟩
          · simp only [findFirstEntry, List.findSome?] at h
            rw [if_neg (by simpa using heq)] at h
            have := ih h
            exact ⟨List.mem_cons_of_mem _ this.1, this.2⟩
      | bad s =>
          simp only [findFirstEntry, List.findSome?] at h
          have := ih h
          exact ⟨List.mem_cons_of_mem _ this.1, this.2⟩

/-- The rebuilt index distributes over ledger concatenation. -/
theorem loadDedupeCache_append (l1 l2 : List LedgerLine) :
    loadDedupeCache (l1 ++ l2) = loadDedupeCache l1 ++ loadDedupeCache l2 := by
  simp [loadDedupeCache, List.filterMap_append]

/-- The truthy dedupe key of any parsed ledger line survives an index
rebuild. -/
theorem key_mem_loadDedupeCache {ledger : List LedgerLine} {e : OutboxEntry}
    {k : String} (hmem : LedgerLine.ok e ∈ ledger) (hk : e.dedupe_key = some k)
    (hne : k ≠ "") : k ∈ loadDedupeCache ledger := by
  rw [loadDedupeCache, List.mem_filterMap]
  exact ⟨.ok e, hmem, by simp [hk, hne]⟩

/-- Applying one outbox call never removes a key from the in-memory index. -/
theorem cache_mono_applyOp (op : OutboxOp) {st : OutboxState} {k : String}
    (h : k ∈ st.dedupe_cache) : k ∈ (applyOp st op).dedupe_cache := by
  cases op with
  | create a =>
      obtain ⟨entry, heq, -⟩ := create_entry_state st a
      simp only [applyOp, heq]
      cases hdk : entry.dedupe_key with
      | none => exact h
      | some k0 =>
          by_cases hne : k0 = ""
          · simp [hne]
            exact h
          · simp [hne]
            exact Or.inr h
  | update outbox_id status sent_at last_error smtp_response now =>
      simp only [applyOp]
      cases hup : update_entry st outbox_id status sent_at last_error smtp_response now with
      | ok st2 =>
          obtain ⟨orig, hf, hst2⟩ := update_entry_ok_elim hup
          subst hst2
          exact h
      | error e => exact h

/-- Running any sequence of outbox calls never removes a key. -/
theorem cache_mono_runOps (ops : List OutboxOp) {st : OutboxState} {k : String}
    (h : k ∈ st.dedupe_cache) : k ∈ (runOps st ops).dedupe_cache := by
  induction ops generalizing st with
  | nil => exact h
  | cons op rest ih => exact ih (cache_mono_applyOp op h)

/-- One outbox call preserves agreement of the in-memory index with a rebuild
from the ledger. -/
theorem applyOp_cache_wf (op : OutboxOp) {st : OutboxState}
    (h : ∀ k, k ∈ st.dedupe_cache ↔ k ∈ loadDedupeCache st.ledger) :
    ∀ k, k ∈ (applyOp st op).dedupe_cache ↔
      k ∈ loadDedupeCache (applyOp st op).ledger := by
  intro k
  cases op with
  | create a =>
      obtain ⟨entry, heq, -⟩ := create_entry_state st a
      simp only [applyOp, heq]
      rw [loadDedupeCache_append, loadDedupeCache_single_ok]
      cases hdk : entry.dedupe_key with
      | none => simp [h k]
      | some k0 =>
          by_cases hne : k0 = ""
          · simp [hne, h k]
          · simp only [hne, ne_eq, not_false_iff, if_true, List.mem_cons,
              List.mem_append, List.mem_singleton, h k]
            tauto
  | update outbox_id status sent_at last_error smtp_response now =>
      simp only [applyOp]
      cases hup : update_entry st outbox_id status sent_at last_error smtp_response now with
      | error e => exact h k
      | ok st2 =>
          obtain ⟨orig, hf, hst2⟩ := update_entry_ok_elim hup
          subst hst2
          simp only [loadDedupeCache_append]
          obtain ⟨hmem, _⟩ := findFirstEntry_eq_some hf
          cases hk : orig.dedupe_key with
          | none => simp [loadDedupeCache, updatedVersion, hk, h k]
          | some k0 =>
              by_cases hne : k0 = ""
              · simp [loadDedupeCache, updatedVersion, hk, hne, h k]
              · have hk0 : k0 ∈ loadDedupeCache st.ledger :=
                  key_mem_loadDedupeCache hmem hk hne
                simp only [loadDedupeCache, List.filterMap_cons, updatedVersion,
                  hk, List.filterMap_nil, if_pos hne, List.mem_append, h k]
                constructor
                · intro hin; exact Or.inl hin
                · rintro (hin | hin)
                  · exact hin
                  · simp at hin
                    subst hin
                    exact hk0

/-- Running any sequence of calls preserves index/ledger agreement. -/
theorem runOps_cache_wf (ops : List OutboxOp) {st : OutboxState}
    (h : ∀ k, k ∈ st.dedupe_cache ↔ k ∈ loadDedupeCache st.ledger) :
    ∀ k, k ∈ (runOps st ops).dedupe_cache ↔
      k ∈ loadDedupeCache (runOps st ops).ledger := by
  induction ops generalizing st with
  | nil => exact h
  | cons op rest ih => exact ih (applyOp_cache_wf op h)

/-- `create_entry` with a truthy selected email puts the dedupe key of its
`(chat, message, email)` triple into the index. -/
theorem create_entry_adds_key {st : OutboxState} {a : CreateArgs} {e : String}
    (hsel : a.selected_email = some e) (hne : e ≠ "") :
    dedupeKeyOf a.tg_chat_id a.tg_message_id e ∈ (create_entry st a).2.dedupe_cache := by
  have htr : truthy a.selected_email = true := by simp [truthy, hsel, hne]
  obtain ⟨entry, heq, hkey⟩ := create_entry_state st a
  rw [htr, if_pos rfl, hsel] at hkey
  simp only [Option.getD_some] at hkey
  simp [heq, hkey, dedupeKeyOf_ne_empty]

/-- Claim C1: a `create_entry` with a non-null selected email adds
`chat_id:message_id:selected_email` to the dedupe index and `is_duplicate`
then answers true; no later call — `update_entry` transitions to `sent`,
`failed` or `skipped` included — ever removes a key; rebuilding the index by
scanning the ledger recovers exactly the keys the index holds; hence after a
creation with a given `(chat_id, message_id, selected_email)` triple, the
`is_duplicate` check for that triple keeps answering true forever. -/
theorem outbox_dedupe_key_permanence :
    (∀ (st : OutboxState) (a : CreateArgs) (e : String),
      a.selected_email = some e → e ≠ "" →
      is_duplicate (create_entry st a).2
        (dedupeKeyOf a.tg_chat_id a.tg_message_id e) = true) ∧
    (∀ (st : OutboxState) (ops : List OutboxOp) (k : String),
      is_duplicate st k = true → is_duplicate (runOps st ops) k = true) ∧
    (∀ (ledger0 : List LedgerLine) (ops : List OutboxOp) (k : String),
      is_duplicate (runOps (initOutbox ledger0) ops) k = true ↔
        k ∈ loadDedupeCache (runOps (initOutbox ledger0) ops).ledger) ∧
    (∀ (st : OutboxState) (a : CreateArgs) (e : String) (ops : List OutboxOp),
      a.selected_email = some e → e ≠ "" →
      is_duplicate (runOps (create_entry st a).2 ops)
        (dedupeKeyOf a.tg_chat_id a.tg_message_id e) = true) := by
  have hdup : ∀ (st : OutboxState) (k : String),
      is_duplicate st k = true ↔ k ∈ st.dedupe_cache := by
    intro st k
    simp [is_duplicate]
  refine ⟨?_, ?_, ?_, ?_⟩
  · intro st a e hsel hne
    exact (hdup _ _).mpr (create_entry_adds_key hsel hne)
  · intro st ops k h
    exact (hdup _ _).mpr (cache_mono_runOps ops ((hdup _ _).mp h))
  · intro ledger0 ops k
    rw [hdup]
    exact runOps_cache_wf ops (fun k => by simp [initOutbox]) k
  · intro st a e ops hsel hne
    exact (hdup _ _).mpr (cache_mono_runOps ops (create_entry_adds_key hsel hne))

/-- Witness for C1: creating entry `X` for `(5, 9, hr@acme.com)` makes its
key a duplicate, and it stays one across `sent` and `failed` transitions and
across an index rebuild. -/
theorem outbox_dedupe_key_permanence_witness :
    is_duplicate (create_entry (initOutbox []) c1Args).2
      (dedupeKeyOf c1Args.tg_chat_id c1Args.tg_message_id "hr@acme.com") = true ∧
    is_duplicate (runOps (create_entry (initOutbox []) c1Args).2
        [.update "X" "sent" none none (some "250 OK") "t1"]) "5:9:hr@acme.com" = true ∧
    (is_duplicate (runOps (initOutbox []) [.create c1Args]) "5:9:hr@acme.com" = true ↔
      "5:9:hr@acme.com" ∈
        loadDedupeCache (runOps (initOutbox []) [.create c1Args]).ledger) ∧
    is_duplicate (runOps (create_entry (initOutbox []) c1Args).2
        [.update "X" "sent" none none (some "250 OK") "t1",
         .update "X" "failed" none (some "boom") none "t2"])
      (dedupeKeyOf c1Args.tg_chat_id c1Args.tg_message_id "hr@acme.com") = true := by
  refine ⟨?_, ?_, ?_, ?_⟩
  · exact outbox_dedupe_key_permanence.1 (initOutbox []) c1Args "hr@acme.com"
      (by rfl) (by decide)
  · exact outbox_dedupe_key_permanence.2.1 (create_entry (initOutbox []) c1Args).2
      [.update "X" "sent" none none (some "250 OK") "t1"] "5:9:hr@acme.com"
      (by with_unfolding_all decide)
  · exact outbox_dedupe_key_permanence.2.2.1 [] [.create c1Args] "5:9:hr@acme.com"
  · exact outbox_dedupe_key_permanence.2.2.2 (initOutbox []) c1Args "hr@acme.com"
      [.update "X" "sent" none none (some "250 OK") "t1",
       .update "X" "failed" none (some "boom") none "t2"]
      (by rfl) (by decide)

/-- Claim C9 as stated is false at a concrete input: entry `X` is created
(attempt 0) and updated twice, yet the latest stored version carries
`attempt_count = 1`, not 2 — `update_entry` locates the first stored version
of the id, not the latest one. -/
theorem update_entry_attempt_count_counterexample :
    (findLastEntry c9State.ledger "X").map (fun e => e.attempt_count) = some 1 ∧
    ¬ (findLastEntry c9State.ledger "X").map (fun e => e.attempt_count) = some 2 := by
  constructor
  · with_unfolding_all decide
  · with_unfolding_all decide

/-- Claim C9 amended: `update_entry` locates the EARLIEST stored version of
`outbox_id` (the scan breaks at the first hit), appends a new version
carrying forward the unmodified fields of that version with its attempt
counter incremented — so the latest version after an update carries the
original attempt count plus one (1 for entries created with attempt 0,
however many updates preceded), and the located version stays the same for
later updates; an absent `outbox_id` raises `ValueError`. -/
theorem update_entry_earliest_version_semantics (st : OutboxState)
    (outbox_id status : String) (sent_at last_error smtp_response : Option String)
    (now : String) :
    (∀ st2, update_entry st outbox_id status sent_at last_error smtp_response now
        = Except.ok st2 →
      ∃ orig, findFirstEntry st.ledger outbox_id = some orig ∧
        st2.ledger = st.ledger ++
          [.ok (updatedVersion orig status sent_at last_error smtp_response now)] ∧
        st2.dedupe_cache = st.dedupe_cache ∧
        findLastEntry st2.ledger outbox_id =
          some (updatedVersion orig status sent_at last_error smtp_response now) ∧
        (updatedVersion orig status sent_at last_error smtp_response now).attempt_count
          = orig.attempt_count + 1 ∧
        findFirstEntry st2.ledger outbox_id = some orig) ∧
    (findFirstEntry st.ledger outbox_id = none →
      update_entry st outbox_id status sent_at last_error smtp_response now
        = Except.error ("Entry " ++ outbox_id ++ " not found")) := by
  constructor
  · intro st2 h
    obtain ⟨orig, hf, hst2⟩ := update_entry_ok_elim h
    have hid : orig.outbox_id = outbox_id := (findFirstEntry_eq_some hf).2
    subst hst2
    refine ⟨orig, hf, rfl, rfl, ?_, rfl, ?_⟩
    · unfold findLastEntry
      have hrev : (st.ledger ++
          [LedgerLine.ok (updatedVersion orig status sent_at last_error smtp_response now)]).reverse
          = LedgerLine.ok (updatedVersion orig status sent_at last_error smtp_response now)
            :: st.ledger.reverse := by
        simp
      rw [hrev]
      have hid2 : (updatedVersion orig status sent_at last_error smtp_response now).outbox_id
          = outbox_id := hid
      simp [findFirstEntry, List.findSome?, hid2]
    · unfold findFirstEntry at hf ⊢
      rw [List.findSome?_append, hf]
      rfl
  · intro hnone
    unfold update_entry
    rw [hnone]

/-- Witness for the amended C9: updating entry `X` right after its creation
appends the incremented version, and updating an absent id `Y` raises. -/
theorem update_entry_earliest_version_semantics_witness :
    (∃ orig, findFirstEntry (create_entry (initOutbox []) c9Args).2.ledger "X"
        = some orig ∧
      (applyOp (create_entry (initOutbox []) c9Args).2
          (.update "X" "sent" none none none "t1")).ledger =
        (create_entry (initOutbox []) c9Args).2.ledger ++
          [.ok (updatedVersion orig "sent" none none none "t1")] ∧
      (applyOp (create_entry (initOutbox []) c9Args).2
          (.update "X" "sent" none none none "t1")).dedupe_cache =
        (create_entry (initOutbox []) c9Args).2.dedupe_cache ∧
      findLastEntry (applyOp (create_entry (initOutbox []) c9Args).2
          (.update "X" "sent" none none none "t1")).ledger "X" =
        some (updatedVersion orig "sent" none none none "t1") ∧
      (updatedVersion orig "sent" none none none "t1").attempt_count =
        orig.attempt_count + 1 ∧
      findFirstEntry (applyOp (create_entry (initOutbox []) c9Args).2
          (.update "X" "sent" none none none "t1")).ledger "X" = some orig) ∧
    update_entry (initOutbox []) "Y" "sent" none none none "t1" =
      Except.error "Entry Y not found" := by
  constructor
  · exact (update_entry_earliest_version_semantics
      (create_entry (initOutbox []) c9Args).2 "X" "sent" none none none "t1").1
      (applyOp (create_entry (initOutbox []) c9Args).2
        (.update "X" "sent" none none none "t1"))
      (by with_unfolding_all rfl)
  · exact (update_entry_earliest_version_semantics
      (initOutbox []) "Y" "sent" none none none "t1").2 (by rfl)

/-- Claim C5 (aggregate reads reduce to one record per `outbox_id`) fails in
the code, contradicting the docstring of `update_entry` ("readers should use
the last version of each outbox_id"): for entry `X` created as `draft` and
updated to `sent`, `get_pending_entries` still returns the superseded draft
version, and `get_statistics` counts the entry twice — once under `draft`
and once under `sent`, with `total` 2 — as does the per-profile breakdown. -/
theorem outbox_aggregates_do_not_reduce :
    (get_pending_entries c5State).map (fun e => (e.outbox_id, e.status))
      = [("X", "draft")] ∧
    statCount (get_statistics c5State).1 "total" = 2 ∧
    statCount (get_statistics c5State).1 "draft" = 1 ∧
    statCount (get_statistics c5State).1 "sent" = 1 ∧
    (get_statistics_by_profile c5State).map
      (fun p => (p.1, statCount p.2 "total", statCount p.2 "sent"))
      = [(some "backend", 2, 1)] := by
  refine ⟨?_, ?_, ?_, ?_, ?_⟩ <;> with_unfolding_all decide

/-- A filtered list is empty exactly when no element passes. -/
theorem filter_isEmpty_eq_not_any {α : Type} (l : List α) (p : α → Bool) :
    (l.filter p).isEmpty = !(l.any p) := by
  induction l with
  | nil => rfl
  | cons a t ih => cases hp : p a <;> simp [List.filter_cons, hp, ih]

set_option maxRecDepth 100000 in
set_option maxHeartbeats 2000000 in
/-- Claim C4 as stated is false at a concrete input: on
`"python developer"` the spec formula (weight × distinct matched phrases,
summed over non-negative groups) yields 3 — two distinct `tech_core_high`
phrases and one `automation_high` phrase — while `classify` computes 2,
because `base_score = sum(weights_applied)` adds each matched GROUP weight
once, regardless of how many phrases matched. -/
theorem classify_score_not_per_phrase_counterexample :
    specScoreDistinctPhrases "python developer" = 3 ∧
    (classify "python developer").metadata.weights_applied.sum = 2 ∧
    (classify "python developer").metadata.guardrail_triggered = false ∧
    (classify "python developer").score = 2 := by
  refine ⟨by with_unfolding_all decide, ?_, ?_, ?_⟩ <;>
    rw [classify_python_developer_eval] <;> with_unfolding_all decide

/-- Claim C4 amended: the score `classify` computes before the guardrails
zero it and before rounding is the sum, over the non-negative groups with at
least one matching phrase, of the group weight counted ONCE per group —
independent of how many distinct phrases of the group matched (per-phrase
weight sums appear only in the `score_breakdown` metadata); the final score
is that sum rounded, or zero when a guardrail fired. -/
theorem classify_base_score_sums_each_matched_group_once (text : String) :
    (classify text).metadata.weights_applied.sum =
      ((KEYWORD_GROUPS.filter (fun g => g.name != "negative_nontech" &&
          g.keywords_en.any (fun kw => wbSearchS (lowerStr text) (lowerStr kw)))).map
        (fun g => g.weight)).sum ∧
    (classify text).score = round2
      (if (classify text).metadata.guardrail_triggered then 0
       else (classify text).metadata.weights_applied.sum) := by
  by_cases h0 : text = ""
  · subst h0
    constructor
    · with_unfolding_all decide
    · with_unfolding_all decide
  · have hne : (text == "") = false := by simp [h0]
    have hgroups : matchedGroupList (lowerStr text) =
        KEYWORD_GROUPS.filter (fun g => g.name != "negative_nontech" &&
          g.keywords_en.any (fun kw => wbSearchS (lowerStr text) (lowerStr kw))) := by
      rw [matchedGroupList]
      apply List.filter_congr
      intro g _
      rw [groupMatches, groupKeywords, filter_isEmpty_eq_not_any, Bool.not_not,
        List.any_map]
      rfl
    have h3 : (classify text).metadata.weights_applied = weightsApplied (lowerStr text) := by
      simp [classify, hne]
    constructor
    · rw [h3, weightsApplied, hgroups]
    · have h1 : (classify text).score = round2 (baseScore (lowerStr text)) := by
        simp [classify, hne]
      have h2 : (classify text).metadata.guardrail_triggered
          = guardrailTriggered (lowerStr text) := by
        simp [classify, hne]
      rw [h1, h2, h3, baseScore, baseScorePre, weightsApplied]

/-- Rounding fixes zero. -/
theorem round2_zero : round2 0 = 0 := by with_unfolding_all decide

set_option maxRecDepth 100000 in
set_option maxHeartbeats 2000000 in
/-- Claim C7 as stated is false at a concrete input: in
`"restaurant server servers"` the matched multi-word negative phrase
`"restaurant server"` textually contains the matched single-word positive
phrase `"server"`, and only ONE positive group (`devops_high`) corroborates —
fewer than the two the claim requires — yet `classify` does not force the
verdict to non-relevant: the code counts corroboration in individual matched
keywords (`len(matched_keywords) <= 1`), and two keywords matched. -/
theorem classify_guardrailB_counterexample :
    (classify "restaurant server servers").metadata.negative_matches
      = ["restaurant", "restaurant server"] ∧
    "restaurant server" ∈ negativePhrases (lowerStr "restaurant server servers") ∧
    substrS "server" (lowerStr "restaurant server") = true ∧
    "server" ∈ (classify "restaurant server servers").metadata.matched_keywords ∧
    (classify "restaurant server servers").metadata.matched_groups
      = ["devops_high"] ∧
    (classify "restaurant server servers").metadata.guardrail_triggered = false ∧
    (classify "restaurant server servers").is_ai_relevant = 1 ∧
    (classify "restaurant server servers").score = 1 := by
  refine ⟨?_, ?_, ?_, ?_, ?_, ?_, ?_, ?_⟩
  · rw [classify_restaurant_server_servers_eval]
    with_unfolding_all decide
  · with_unfolding_all decide
  · with_unfolding_all decide
  · rw [classify_restaurant_server_servers_eval]
    with_unfolding_all decide
  · rw [classify_restaurant_server_servers_eval]
    with_unfolding_all decide
  · rw [classify_restaurant_server_servers_eval]
    with_unfolding_all decide
  · rw [classify_restaurant_server_servers_eval]
    with_unfolding_all decide
  · rw [classify_restaurant_server_servers_eval]
    with_unfolding_all decide

/-- Claim C7 amended: the negative-phrase override fires exactly when a
matched multi-word negative phrase contains a matched positive keyword AND
the signal is not corroborated — where corroboration is counted in
individual matched positive keywords (at least two, `len(matched_keywords)`),
not in independent positive groups; with a technical group matched and two or
more matched keywords the override (and every other guardrail) stays off and
the score is untouched. -/
theorem classify_guardrailB_keyword_corroboration (text : String) (h0 : text ≠ "") :
    ((negPhraseContainsTech (lowerStr text) = true ∧
        (techMatched (lowerStr text) = false ∨
          (matchedKeywords (lowerStr text)).length ≤ 1)) →
      (classify text).metadata.guardrail_triggered = true ∧
      (classify text).score = 0) ∧
    ((techMatched (lowerStr text) = true ∧
        2 ≤ (matchedKeywords (lowerStr text)).length) →
      (classify text).metadata.guardrail_triggered = false ∧
      (classify text).score = round2 (baseScorePre (lowerStr text))) := by
  have hne : (text == "") = false := by simp [h0]
  have hmeta : (classify text).metadata.guardrail_triggered
      = guardrailTriggered (lowerStr text) := by
    simp [classify, hne]
  have hscore : (classify text).score = round2 (baseScore (lowerStr text)) := by
    simp [classify, hne]
  constructor
  · rintro ⟨hcont, hcond⟩
    have hphr : (negativePhrases (lowerStr text)).isEmpty = false := by
      cases hh : (negativePhrases (lowerStr text)).isEmpty
      · rfl
      · rw [List.isEmpty_iff] at hh
        rw [negPhraseContainsTech, hh] at hcont
        simp at hcont
    have hnm : (negativeMatches (lowerStr text)).isEmpty = false := by
      cases hh : (negativeMatches (lowerStr text)).isEmpty
      · rfl
      · rw [List.isEmpty_iff] at hh
        rw [negativePhrases, hh] at hphr
        simp at hphr
    have hlast : (!techMatched (lowerStr text)
        || decide ((matchedKeywords (lowerStr text)).length ≤ 1)) = true := by
      rcases hcond with h | h
      · simp [h]
      · simp [h]
    have htrigB : trigB (lowerStr text) = true := by
      rw [trigB, hnm, hphr, hcont, hlast]
      rfl
    have hg : guardrailTriggered (lowerStr text) = true := by
      rw [guardrailTriggered, htrigB]
      simp
    refine ⟨by rw [hmeta, hg], ?_⟩
    rw [hscore, baseScore, hg, if_pos rfl, round2_zero]
  · rintro ⟨htech, hlen⟩
    have hA : trigA (lowerStr text) = false := by simp [trigA, htech]
    have hB : trigB (lowerStr text) = false := by
      have : ¬((matchedKeywords (lowerStr text)).length ≤ 1) := by omega
      simp [trigB, htech, this]
    have hC : trigC (lowerStr text) = false := by simp [trigC, htech]
    have hg : guardrailTriggered (lowerStr text) = false := by
      rw [guardrailTriggered, hA, hB, hC]
      rfl
    refine ⟨by rw [hmeta, hg], ?_⟩
    rw [hscore, baseScore, hg, if_neg (by simp)]

set_option maxRecDepth 100000 in
set_option maxHeartbeats 2000000 in
/-- Witness for the amended C7: on `"restaurant server"` one matched keyword
is too little corroboration and the verdict is forced to non-relevant; on
`"restaurant server servers"` two matched keywords keep the guardrail off. -/
theorem classify_guardrailB_keyword_corroboration_witness :
    ((classify "restaurant server").metadata.guardrail_triggered = true ∧
      (classify "restaurant server").score = 0) ∧
    ((classify "restaurant server servers").metadata.guardrail_triggered = false ∧
      (classify "restaurant server servers").score
        = round2 (baseScorePre (lowerStr "restaurant server servers"))) := by
  have hne1 : ("restaurant server" == "") = false := by decide
  have hmk1 : matchedKeywords (lowerStr "restaurant server") = ["server"] := by
    have e : (classify "restaurant server").metadata.matched_keywords
        = matchedKeywords (lowerStr "restaurant server") := by
      simp [classify, hne1]
    rw [classify_restaurant_server_eval] at e
    exact e.symm
  have hnm1 : negativeMatches (lowerStr "restaurant server")
      = ["restaurant", "restaurant server"] := by
    have e : (classify "restaurant server").metadata.negative_matches
        = negativeMatches (lowerStr "restaurant server") := by
      simp [classify, hne1]
    rw [classify_restaurant_server_eval] at e
    exact e.symm
  have hne2 : ("restaurant server servers" == "") = false := by decide
  have hmk2 : matchedKeywords (lowerStr "restaurant server servers")
      = ["server", "servers"] := by
    have e : (classify "restaurant server servers").metadata.matched_keywords
        = matchedKeywords (lowerStr "restaurant server servers") := by
      simp [classify, hne2]
    rw [classify_restaurant_server_servers_eval] at e
    exact e.symm
  have hmg2 : matchedGroups (lowerStr "restaurant server servers")
      = ["devops_high"] := by
    have e : (classify "restaurant server servers").metadata.matched_groups
        = matchedGroups (lowerStr "restaurant server servers") := by
      simp [classify, hne2]
    rw [classify_restaurant_server_servers_eval] at e
    exact e.symm
  constructor
  · refine (classify_guardrailB_keyword_corroboration "restaurant server"
      (by decide)).1 ⟨?_, Or.inr ?_⟩
    · rw [negPhraseContainsTech, negativePhrases, hnm1, hmk1]
      with_unfolding_all decide
    · rw [hmk1]
      decide
  · refine (classify_guardrailB_keyword_corroboration "restaurant server servers"
      (by decide)).2 ⟨?_, ?_⟩
    · rw [techMatched, hmg2]
      decide
    · rw [hmk2]
      decide

/-- One link of the reasons chain: a conditional singleton prepended to a
sublist. -/
theorem reason_chain_sublist (b : Bool) (x : String) {l1 l2 : List String}
    (h : l1.Sublist l2) : ((if b then [x] else []) ++ l1).Sublist (x :: l2) := by
  cases b
  · simpa using h.cons x
  · simpa using h.cons₂ x

/-- The reasons list is always a sublist of the fixed label order. -/
theorem reasonsOf_sublist (tl : String) : (reasonsOf tl).Sublist reasonOrder := by
  rw [reasonsOf, reasonOrder]
  simp only [List.append_assoc]
  refine reason_chain_sublist _ _ (reason_chain_sublist _ _ (reason_chain_sublist _ _
    (reason_chain_sublist _ _ (reason_chain_sublist _ _ (reason_chain_sublist _ _ ?_)))))
  split
  · simp
  · simp

/-- The fixed label order has no duplicates. -/
theorem reasonOrder_nodup : reasonOrder.Nodup := by decide

/-- Every matched positive group is one of the seven positive table groups. -/
theorem matchedGroups_mem_names {tl g : String} (h : g ∈ matchedGroups tl) :
    g ∈ ["tech_core_high", "automation_high", "devops_high", "ai_ml_high",
         "security_high", "it_support_mid", "remote_low"] := by
  rw [matchedGroups] at h
  obtain ⟨gg, hgg, rfl⟩ := List.mem_map.mp h
  rw [matchedGroupList, List.mem_filter] at hgg
  obtain ⟨hmem, hpred⟩ := hgg
  have hname : gg.name ≠ "negative_nontech" := by
    rw [Bool.and_eq_true] at hpred
    simpa using hpred.1
  have h8 : gg.name ∈ KEYWORD_GROUPS.map (fun g => g.name) :=
    List.mem_map_of_mem _ hmem
  have hlist : KEYWORD_GROUPS.map (fun g => g.name) =
      ["tech_core_high", "automation_high", "devops_high", "ai_ml_high",
       "security_high", "it_support_mid", "remote_low", "negative_nontech"] := by
    rfl
  rw [hlist] at h8
  simp at h8 ⊢
  tauto

/-- Claim C8: `classify` is deterministic — identical input text yields the
identical verdict, score and reasons — and the reasons list is deduplicated,
a sublist of the fixed label order (hence its order never depends on the
input), and contains the label of every positive group that contributed
(every matched technical group; the remote group when technical signal backs
it — without that backing the guardrail zeroes its contribution). -/
theorem classify_deterministic_stable_reasons (text : String) :
    classify text = classify text ∧
    (classify text).reasons.Nodup ∧
    (classify text).reasons.Sublist reasonOrder ∧
    (∀ g, g ∈ (classify text).metadata.matched_groups →
      (g = "remote_low" → techMatched (lowerStr text) = true) →
      groupLabel g ∈ (classify text).reasons) := by
  by_cases h0 : text = ""
  · subst h0
    refine ⟨rfl, by with_unfolding_all decide, ?_, ?_⟩
    · have : (classify "").reasons = [] := rfl
      rw [this]
      exact List.nil_sublist _
    · intro g hg hrem
      have : (classify "").metadata.matched_groups = [] := rfl
      rw [this] at hg
      simp at hg
  · have hne : (text == "") = false := by simp [h0]
    have hreasons : (classify text).reasons = reasonsOf (lowerStr text) := by
      simp [classify, hne]
    have hgroups : (classify text).metadata.matched_groups
        = matchedGroups (lowerStr text) := by
      simp [classify, hne]
    have hsub := reasonsOf_sublist (lowerStr text)
    refine ⟨rfl, ?_, ?_, ?_⟩
    · rw [hreasons]
      exact reasonOrder_nodup.sublist hsub
    · rw [hreasons]
      exact hsub
    · intro g hg hrem
      rw [hgroups] at hg
      rw [hreasons]
      have h7 := matchedGroups_mem_names hg
      simp only [List.mem_cons, List.not_mem_nil, or_false] at h7
      rcases h7 with rfl | rfl | rfl | rfl | rfl | rfl | rfl
      · simp [reasonsOf, groupLabel, hg]
      · simp [reasonsOf, groupLabel, hg]
      · simp [reasonsOf, groupLabel, hg]
      · simp [reasonsOf, groupLabel, hg]
      · simp [reasonsOf, groupLabel, hg]
      · simp [reasonsOf, groupLabel, hg]
      · simp [reasonsOf, groupLabel, hg, hrem rfl]

set_option maxRecDepth 100000 in
set_option maxHeartbeats 2000000 in
/-- Witness for C8 at `"python developer"`: the matched group
`tech_core_high` contributed and its label is reported, in a deduplicated
list. -/
theorem classify_deterministic_stable_reasons_witness :
    (classify "python developer").reasons.Nodup ∧
    groupLabel "tech_core_high" ∈ (classify "python developer").reasons := by
  have h := classify_deterministic_stable_reasons "python developer"
  refine ⟨h.2.1, ?_⟩
  refine h.2.2.2 "tech_core_high" ?_ (fun hh => absurd hh (by decide))
  rw [classify_python_developer_eval]
  decide

/-- The positive-keyword fold adds 1 per passing entry. -/
theorem foldl_add_count (l : List String) (q : String → Bool) (s : Rat) :
    l.foldl (fun s kw => if q kw then s + 1 else s) s
      = s + ((l.filter q).length : Rat) := by
  induction l generalizing s with
  | nil => simp
  | cons a t ih =>
      cases hq : q a
      · simp [List.foldl_cons, List.filter_cons, hq, ih]
      · simp [List.foldl_cons, List.filter_cons, hq, ih]
        ring

/-- The negative-keyword fold subtracts 3/2 per passing entry. -/
theorem foldl_sub_count (l : List String) (q : String → Bool) (s : Rat) :
    l.foldl (fun s kw => if q kw then s - 3/2 else s) s
      = s - 3/2 * ((l.filter q).length : Rat) := by
  induction l generalizing s with
  | nil => simp
  | cons a t ih =>
      cases hq : q a
      · simp [List.foldl_cons, List.filter_cons, hq, ih]
      · simp [List.foldl_cons, List.filter_cons, hq, ih]
        ring

/-- `score_profile` as matched-entry counts. -/
theorem score_profile_eq (text : String) (p : Profile) :
    score_profile text p =
      ((p.keywords_positive.filter
          (fun kw => wbSearchS (lowerStr text) (lowerStr kw))).length : Rat)
        - 3/2 * ((p.keywords_negative.filter
          (fun kw => wbSearchS (lowerStr text) (lowerStr kw))).length : Rat) := by
  rw [score_profile]
  rw [foldl_sub_count, foldl_add_count]
  ring

/-- Over a list that avoids the seen set, `distinctAux` is the identity. -/
theorem distinctAux_of_nodup {seen : List String} {l : List String}
    (hl : l.Nodup) (hs : ∀ x ∈ l, x ∉ seen) : distinctAux seen l = l := by
  induction l generalizing seen with
  | nil => rfl
  | cons x xs ih =>
      have hx : seen.contains x = false := by
        have := hs x (List.mem_cons_self _ _)
        simpa using this
      rw [distinctAux, hx]
      simp only [Bool.false_eq_true, if_false]
      congr 1
      apply ih (List.Nodup.of_cons hl)
      intro y hy
      simp only [List.mem_cons, not_or]
      exact ⟨fun he => (List.nodup_cons.mp hl).1 (he ▸ hy),
        hs y (List.mem_cons_of_mem _ hy)⟩

/-- A duplicate-free list is its own distinct list. -/
theorem distinctList_of_nodup {l : List String} (hl : l.Nodup) :
    distinctList l = l :=
  distinctAux_of_nodup hl (by simp)

/-- With duplicate-free (lowered) keyword lists, `score_profile` is +1 per
distinct matched positive phrase and −3/2 per distinct matched negative
phrase. -/
theorem score_profile_distinct (text : String) (p : Profile)
    (hp : (p.keywords_positive.map lowerStr).Nodup)
    (hn : (p.keywords_negative.map lowerStr).Nodup) :
    score_profile text p = (matchedPhraseCount text p.keywords_positive : Rat)
      - 3/2 * (matchedPhraseCount text p.keywords_negative : Rat) := by
  rw [score_profile_eq, matchedPhraseCount, matchedPhraseCount,
    distinctList_of_nodup hp, distinctList_of_nodup hn,
    List.map_filter, List.map_filter, List.length_map, List.length_map]
  rfl

/-- Inserting into the descending sort grows the length by one. -/
theorem insertDesc_length (x : Rat) (l : List Rat) :
    (insertDesc x l).length = l.length + 1 := by
  induction l with
  | nil => rfl
  | cons y ys ih =>
      rw [insertDesc]
      split
      · rfl
      · simp [ih]

/-- Sorting preserves length. -/
theorem sortDesc_length (l : List Rat) : (sortDesc l).length = l.length := by
  induction l with
  | nil => rfl
  | cons y ys ih => simp [sortDesc, List.foldr_cons, insertDesc_length, ih]
                    rw [← sortDesc, ih]

/-- `argmaxFirst` returns an element of the list whose score bounds every
element. -/
theorem argmaxFirst_spec (x : String × Rat) (xs : List (String × Rat)) :
    ∃ c, argmaxFirst (x :: xs) = some c ∧ c ∈ x :: xs ∧
      ∀ d ∈ x :: xs, d.2 ≤ c.2 := by
  induction xs generalizing x with
  | nil =>
      refine ⟨x, rfl, List.mem_cons_self _ _, ?_⟩
      intro d hd
      simp at hd
      subst hd
      exact le_refl _
  | cons y ys ih =>
      obtain ⟨c, hc, hmem, hbound⟩ := ih (if y.2 > x.2 then y else x)
      have hci : argmaxFirst (x :: y :: ys) = some c := by
        simp only [argmaxFirst, List.foldl_cons] at hc ⊢
        exact hc
      have hx : x.2 ≤ (if y.2 > x.2 then y else x).2 := by
        split
        · next hgt => exact le_of_lt hgt
        · exact le_refl _
      have hy : y.2 ≤ (if y.2 > x.2 then y else x).2 := by
        split
        · exact le_refl _
        · next hngt => exact le_of_not_lt hngt
      have hstep : (if y.2 > x.2 then y else x).2 ≤ c.2 :=
        hbound _ (List.mem_cons_self _ _)
      refine ⟨c, hci, ?_, ?_⟩
      · rcases List.mem_cons.mp hmem with h | h
        · rw [h]
          split
          · exact List.mem_cons_of_mem _ (List.mem_cons_self _ _)
          · exact List.mem_cons_self _ _
        · exact List.mem_cons_of_mem _ (List.mem_cons_of_mem _ h)
      · intro d hd
        rcases List.mem_cons.mp hd with h | hd2
        · subst h
          exact le_trans hx hstep
        · rcases List.mem_cons.mp hd2 with h | h
          · subst h
            exact le_trans hy hstep
          · exact hbound d (List.mem_cons_of_mem _ h)

/-- A profile is a candidate exactly when its score reaches its own
threshold (default 0.7). -/
theorem aboveThreshold_mem_iff (text : String)
    (profiles : List (String × Profile))
    (hids : (profiles.map (fun p => p.1)).Nodup) :
    ∀ p ∈ profiles, ((p.1, score_profile text p.2) ∈ aboveThreshold text profiles
      ↔ score_profile text p.2 ≥ p.2.threshold.getD (7/10)) := by
  intro p hp
  constructor
  · intro hmem
    rw [aboveThreshold, List.mem_filterMap] at hmem
    obtain ⟨q, hq, hqe⟩ := hmem
    by_cases hcond : score_profile text q.2 ≥ q.2.threshold.getD (7/10)
    · rw [if_pos hcond] at hqe
      simp only [Option.some.injEq, Prod.mk.injEq] at hqe
      have hqp : q = p := by
        have := List.inj_on_of_nodup_map hids hq hp hqe.1
        exact this
      rw [hqp] at hcond
      exact hcond
    · rw [if_neg hcond] at hqe
      exact absurd hqe (by simp)
  · intro hcond
    rw [aboveThreshold, List.mem_filterMap]
    exact ⟨p, hp, by rw [if_pos hcond]⟩

/-- Claim C6: `route_message` scores every profile (+1.0 per distinct matched
positive phrase, −1.5 per distinct matched negative phrase, both
word-boundary and case-insensitive), treats a profile as a candidate iff its
score reaches its own threshold (default 0.7), and decides: zero candidates →
skip `no_match`; one candidate → that profile; several candidates → skip
`tie_close` when the top two candidate scores lie within 0.1, else the
highest-scoring candidate wins; every outcome carries the full per-profile
score map. -/
theorem route_message_decision_table (text : String)
    (profiles : List (String × Profile))
    (hne : profiles ≠ [])
    (hids : (profiles.map (fun p => p.1)).Nodup)
    (hpos : ∀ p ∈ profiles, (p.2.keywords_positive.map lowerStr).Nodup)
    (hneg : ∀ p ∈ profiles, (p.2.keywords_negative.map lowerStr).Nodup) :
    ((route_message text profiles).scores = profiles.map (fun p => (p.1,
        (matchedPhraseCount text p.2.keywords_positive : Rat)
          - 3/2 * (matchedPhraseCount text p.2.keywords_negative : Rat)))) ∧
    (∀ p ∈ profiles, ((p.1, score_profile text p.2) ∈ aboveThreshold text profiles
        ↔ score_profile text p.2 ≥ p.2.threshold.getD (7/10))) ∧
    (aboveThreshold text profiles = [] →
      (route_message text profiles).profile_id = none ∧
      (route_message text profiles).skip_reason = some "no_match") ∧
    (∀ c, aboveThreshold text profiles = [c] →
      (route_message text profiles).profile_id = some c.1 ∧
      (route_message text profiles).skip_reason = none) ∧
    (2 ≤ (aboveThreshold text profiles).length →
      (topGap (sortDesc ((aboveThreshold text profiles).map (fun p => p.2)))
          < 1/10 →
        (route_message text profiles).profile_id = none ∧
        (route_message text profiles).skip_reason = some "tie_close") ∧
      (¬ topGap (sortDesc ((aboveThreshold text profiles).map (fun p => p.2)))
          < 1/10 →
        (route_message text profiles).skip_reason = none ∧
        ∃ c ∈ aboveThreshold text profiles,
          (route_message text profiles).profile_id = some c.1 ∧
          ∀ d ∈ aboveThreshold text profiles, d.2 ≤ c.2)) := by
  have hscores : (route_message text profiles).scores
      = profiles.map (fun p => (p.1, score_profile text p.2)) := by
    rcases haT : aboveThreshold text profiles with - | ⟨c1, rest⟩
    · simp [route_message, haT]
    · rcases rest with - | ⟨c2, rest2⟩
      · simp [route_message, haT]
      · simp only [route_message, haT]
        split
        · rfl
        · rfl
  refine ⟨?_, aboveThreshold_mem_iff text profiles hids, ?_, ?_, ?_⟩
  · rw [hscores]
    apply List.map_congr_left
    intro p hp
    rw [score_profile_distinct text p.2 (hpos p hp) (hneg p hp)]
  · intro h
    simp [route_message, h]
  · intro c h
    simp [route_message, h]
  · intro hlen
    rcases haT : aboveThreshold text profiles with - | ⟨c1, rest⟩
    · rw [haT] at hlen
      simp at hlen
    rcases rest with - | ⟨c2, rest2⟩
    · rw [haT] at hlen
      simp at hlen
    have hslen : 2 ≤ (sortDesc ((c1 :: c2 :: rest2).map (fun p => p.2))).length := by
      rw [sortDesc_length]
      simp
    constructor
    · intro htie
      have hcond : 2 ≤ (sortDesc ((c1 :: c2 :: rest2).map (fun p => p.2))).length ∧
          topGap (sortDesc ((c1 :: c2 :: rest2).map (fun p => p.2))) < 1/10 :=
        ⟨hslen, htie⟩
      have hroute : route_message text profiles =
          { profile_id := none, skip_reason := some "tie_close",
            scores := profiles.map (fun p => (p.1, score_profile text p.2)),
            decision := "scores_too_close" } := by
        simp only [route_message, haT]
        rw [if_pos hcond]
      rw [hroute]
      exact ⟨rfl, rfl⟩
    · intro hntie
      have hcond : ¬(2 ≤ (sortDesc ((c1 :: c2 :: rest2).map (fun p => p.2))).length ∧
          topGap (sortDesc ((c1 :: c2 :: rest2).map (fun p => p.2))) < 1/10) := by
        rintro ⟨-, ht⟩
        exact hntie ht
      obtain ⟨c, hc, hmem, hbound⟩ := argmaxFirst_spec c1 (c2 :: rest2)
      have hroute : route_message text profiles =
          { profile_id := (argmaxFirst (c1 :: c2 :: rest2)).map (fun p => p.1),
            skip_reason := none,
            scores := profiles.map (fun p => (p.1, score_profile text p.2)),
            decision := "clear_winner" } := by
        simp only [route_message, haT]
        rw [if_neg hcond]
      rw [hroute]
      refine ⟨rfl, c, hmem, ?_, fun d hd => hbound d hd⟩
      show (argmaxFirst (c1 :: c2 :: rest2)).map (fun p => p.1) = some c.1
      rw [hc]
      rfl

set_option maxRecDepth 100000 in
set_option maxHeartbeats 2000000 in
/-- Witness for C6: on `"python developer"` against the two-profile fixture,
`backend` is the single candidate (score 2, threshold 0.7) and wins, and the
returned score map is the per-distinct-phrase formula. -/
theorem route_message_decision_table_witness :
    (route_message "python developer" c6Profiles).scores =
      c6Profiles.map (fun p => (p.1,
        (matchedPhraseCount "python developer" p.2.keywords_positive : Rat)
          - 3/2 * (matchedPhraseCount "python developer" p.2.keywords_negative : Rat))) ∧
    (route_message "python developer" c6Profiles).profile_id = some "backend" ∧
    (route_message "python developer" c6Profiles).skip_reason = none := by
  have h := route_message_decision_table "python developer" c6Profiles
    (by decide) (by decide)
    (by with_unfolding_all decide) (by with_unfolding_all decide)
  refine ⟨h.1, ?_⟩
  have hsingle := h.2.2.2.1 ("backend", score_profile "python developer"
    { keywords_positive := ["python", "developer"], keywords_negative := ["sales"],
      threshold := none })
    (by with_unfolding_all decide)
  exact ⟨hsingle.1, hsingle.2⟩

end AIJobScanner
